import Mathlib

/-!
# Admin report: aggregation and report store

A shallow embedding of the report pipeline of the admin-report service
(`habits/habits_report.go`, `tasks/tasks_report.go`, `habits/habits_db_mysql.go`,
`tasks/tasks_db_mysql.go`) together with the properties proved about it.

Conventions of the embedding:

* a Go slice is a `List`; a `for i, _ := range xs` loop is a left fold over the list;
* Go `int` / `int64` values are `Int`.  The only arithmetic the aggregators perform on
  them is `++` on counters that start at zero, once per element at most, and a Go slice
  has fewer than `2^63` elements, so no counter can wrap; scores and timestamps are only
  compared.  The one place where 64-bit arithmetic can wrap is the date arithmetic of the
  `time` package, which is reduced modulo `2^64` as Go does;
* a nullable pointer (`*int64`) is an `Option`;
* an index fault (`allHabits[0]` on an empty slice) is the `none` result of a function
  returning `Option`.
-/

namespace habits

/-! ## habits/habits_report.go -/

def COLOR_RED : String := "red darken-1"
def COLOR_ORANGE : String := "orange darken-1"
def COLOR_YELLOW : String := "yellow darken-2"
def COLOR_GREEN : String := "light-green darken-1"
def COLOR_BLUE : String := "blue darken-1"

structure Habit where
  Difficulty : String
  Color : String
  Score : Int
  HabitID : String
  UserID : String
  Type_ : String
  Title : String
deriving DecidableEq, Repr

structure HabitDescription where
  User : String
  Title : String
deriving DecidableEq, Repr

structure HabitRange where
  Red : Int
  Orange : Int
  Yellow : Int
  Green : Int
  Blue : Int
deriving DecidableEq, Repr

structure HabitsReport where
  ReportID : Int
  RangeCount : HabitRange
  Worst : HabitDescription
  Best : HabitDescription
deriving DecidableEq, Repr

/-- One iteration of the loop of `createHabitRange`: the `if / else if` chain on the colour
of the current habit. -/
def createHabitRangeStep (habitRange : HabitRange) (h : Habit) : HabitRange :=
  if h.Color = COLOR_RED then { habitRange with Red := habitRange.Red + 1 }
  else if h.Color = COLOR_ORANGE then { habitRange with Orange := habitRange.Orange + 1 }
  else if h.Color = COLOR_YELLOW then { habitRange with Yellow := habitRange.Yellow + 1 }
  else if h.Color = COLOR_GREEN then { habitRange with Green := habitRange.Green + 1 }
  else if h.Color = COLOR_BLUE then { habitRange with Blue := habitRange.Blue + 1 }
  else habitRange

/-- The function `createHabitRange`: the zero-valued `HabitRange` updated once per habit. -/
def createHabitRange (allHabits : List Habit) : HabitRange :=
  allHabits.foldl createHabitRangeStep ⟨0, 0, 0, 0, 0⟩

/-- Sum of the five buckets of a `HabitRange`. -/
def HabitRange.sum (r : HabitRange) : Int :=
  r.Red + r.Orange + r.Yellow + r.Green + r.Blue

/-- The colour is one of the five tags `createHabitRange` recognises. -/
def knownColor (c : String) : Bool :=
  decide (c = COLOR_RED) || decide (c = COLOR_ORANGE) || decide (c = COLOR_YELLOW)
    || decide (c = COLOR_GREEN) || decide (c = COLOR_BLUE)

/-- One iteration of the loop of `findWorstHabit`. -/
def findWorstHabitStep (currentWorst : Habit) (h : Habit) : Habit :=
  if h.Score < currentWorst.Score then h else currentWorst

/-- The function `findWorstHabit`.  `allHabits[0]` faults on the empty slice (`none`);
otherwise the loop runs over the whole slice, the first element included. -/
def findWorstHabit (allHabits : List Habit) : Option HabitDescription :=
  match allHabits with
  | [] => none
  | first :: _ =>
    let currentWorst := allHabits.foldl findWorstHabitStep first
    some ⟨currentWorst.UserID, currentWorst.Title⟩

/-- One iteration of the loop of `findBestHabit`. -/
def findBestHabitStep (currentBest : Habit) (h : Habit) : Habit :=
  if h.Score > currentBest.Score then h else currentBest

/-- The function `findBestHabit`.  `allHabits[0]` faults on the empty slice (`none`);
otherwise the loop runs over the whole slice, the first element included. -/
def findBestHabit (allHabits : List Habit) : Option HabitDescription :=
  match allHabits with
  | [] => none
  | first :: _ =>
    let currentBest := allHabits.foldl findBestHabitStep first
    some ⟨currentBest.UserID, currentBest.Title⟩

/-- The common shape of the loops of `findWorstHabit` and `findBestHabit`: keep the current
candidate unless the next record has a strictly smaller key. -/
def keepSmaller (key : Habit → Int) (current h : Habit) : Habit :=
  if key h < key current then h else current

/-- The two records of the habits scenario of the specification. -/
def scenarioHabits : List Habit :=
  [ { Difficulty := "", Color := "red darken-1", Score := 1, HabitID := "", UserID := "u1",
      Type_ := "", Title := "t1" },
    { Difficulty := "", Color := "blue darken-1", Score := 9, HabitID := "", UserID := "u2",
      Type_ := "", Title := "t2" } ]

end habits

/-! ## The `time` package, as far as `tasks_report.go` uses it -/

namespace time

/-- A time zone (`*time.Location`): the offset in seconds east of UTC in force at a given
Unix instant.  `time.Now()` and `time.Unix(sec, 0)` both yield times in the process-wide
`time.Local` location. -/
abbrev Location := Int → Int

/-- The location `time.UTC`. -/
def UTC : Location := fun _ => 0

/-- The constant `unixToInternal`: the seconds from 1 January of year 1 to 1 January 1970. -/
def unixToInternal : Int := (1969 * 365 + 1969 / 4 - 1969 / 100 + 1969 / 400) * 86400

/-- The constant `absoluteZeroYear`, the year the unsigned date arithmetic counts from. -/
def absoluteZeroYear : Int := -292277022399

/-- The constant `internalToAbsolute`: the seconds from 1 January of `absoluteZeroYear` to
1 January of year 1, that is `(1 - absoluteZeroYear) * 365.2425 * 86400`. -/
def internalToAbsolute : Int := (1 - absoluteZeroYear) * 31556952

/-- The method `Time.abs` of the instant `sec` (Unix seconds) read in `loc`:
`uint64(sec + offset + (unixToInternal + internalToAbsolute))`.  The additions are made on
`int64` and the conversion to `uint64` keeps the bits, so the result is the sum reduced
modulo `2^64`. -/
def abs (loc : Location) (sec : Int) : Nat :=
  ((sec + loc sec + (unixToInternal + internalToAbsolute)) % 2 ^ 64).toNat

/-- Go's `absDate`, reduced to the year and the zero-based day of the year: the unsigned
count of days since 1 January of `absoluteZeroYear` is cut into 400-year, 100-year, 4-year
and 1-year cycles (`n -= n >> 2` turns the fifth cycle of the last day into the fourth). -/
def absDate (abs : Nat) : Int × Int :=
  let d0 := abs / 86400
  let n400 := d0 / 146097
  let d1 := d0 - 146097 * n400
  let n100 := d1 / 36524 - (d1 / 36524) / 4
  let d2 := d1 - 36524 * n100
  let n4 := d2 / 1461
  let d3 := d2 - 1461 * n4
  let n1 := d3 / 365 - (d3 / 365) / 4
  let yday := d3 - 365 * n1
  (((400 * n400 + 100 * n100 + 4 * n4 + n1 : Nat) : Int) + absoluteZeroYear, (yday : Int))

/-- The method `Time.Year` of the instant `sec` (Unix seconds) read in `loc`. -/
def Year (loc : Location) (sec : Int) : Int :=
  (absDate (abs loc sec)).1

/-- The method `Time.YearDay` of the instant `sec` (Unix seconds) read in `loc`: the day of
the year, from 1 to 365 or 366. -/
def YearDay (loc : Location) (sec : Int) : Int :=
  (absDate (abs loc sec)).2 + 1

end time

namespace tasks

/-! ## tasks/tasks_report.go -/

structure Task where
  CompletedDate : Option Int
  Description : String
  DueDate : Int
  Reminder : Int
  Title : String
  UserID : String
deriving DecidableEq, Repr

structure CompletedDescription where
  Total : Int
  OnTime : Int
  Late : Int
deriving DecidableEq, Repr

structure AvailableDescription where
  Total : Int
  DueToday : Int
deriving DecidableEq, Repr

structure TasksReport where
  ReportID : Int
  Completed : CompletedDescription
  Delayed : Int
  Available : AvailableDescription
deriving DecidableEq, Repr

/-- One iteration of the loop of `populateCompleted`: `continue` on a nil `CompletedDate`,
then the `if / else if` on the two dates. -/
def populateCompletedStep (completed : CompletedDescription) (t : Task) :
    CompletedDescription :=
  match t.CompletedDate with
  | none => completed
  | some completedDate =>
    if completedDate ≤ t.DueDate then
      { completed with Total := completed.Total + 1, OnTime := completed.OnTime + 1 }
    else if completedDate > t.DueDate then
      { completed with Total := completed.Total + 1, Late := completed.Late + 1 }
    else completed

/-- The function `populateCompleted`. -/
def populateCompleted (allTasks : List Task) : CompletedDescription :=
  allTasks.foldl populateCompletedStep ⟨0, 0, 0⟩

/-- One iteration of the loop of `countDelayed`; `now` is the value of `time.Now().Unix()`. -/
def countDelayedStep (now : Int) (delayedCount : Int) (t : Task) : Int :=
  if t.CompletedDate = none ∧ t.DueDate < now then delayedCount + 1 else delayedCount

/-- The function `countDelayed`, with the clock reading as a parameter: the wall clock is
taken to show the same second `now` throughout the loop. -/
def countDelayed (now : Int) (allTasks : List Task) : Int :=
  allTasks.foldl (countDelayedStep now) 0

/-- One iteration of the loop of `populateAvailable`; `loc` is `time.Local` and `now` the
Unix second of `time.Now()`. -/
def populateAvailableStep (loc : time.Location) (now : Int)
    (available : AvailableDescription) (t : Task) : AvailableDescription :=
  if t.CompletedDate = none then
    if time.YearDay loc t.DueDate = time.YearDay loc now then
      { Total := available.Total + 1, DueToday := available.DueToday + 1 }
    else { available with Total := available.Total + 1 }
  else available

/-- The function `populateAvailable`, with the local time zone and the clock reading as
parameters: the wall clock is taken to show the same second `now` throughout the loop. -/
def populateAvailable (loc : time.Location) (now : Int) (allTasks : List Task) :
    AvailableDescription :=
  allTasks.foldl (populateAvailableStep loc now) ⟨0, 0⟩

/-- The record has a `CompletedDate`. -/
def isCompleted (t : Task) : Bool := t.CompletedDate.isSome

/-- The record has a `CompletedDate` that is not after its `DueDate`. -/
def isOnTime (t : Task) : Bool :=
  match t.CompletedDate with
  | some completedDate => decide (completedDate ≤ t.DueDate)
  | none => false

/-- The record has a `CompletedDate` that is after its `DueDate`. -/
def isLate (t : Task) : Bool :=
  match t.CompletedDate with
  | some completedDate => decide (completedDate > t.DueDate)
  | none => false

/-- A task that is not completed and is due at the Unix second `due`. -/
def openTask (due : Int) : Task :=
  { CompletedDate := none, Description := "", DueDate := due, Reminder := 0, Title := "",
    UserID := "" }

/-- A task completed at the Unix second `completed` and due at `due`. -/
def doneTask (completed due : Int) : Task :=
  { CompletedDate := some completed, Description := "", DueDate := due, Reminder := 0,
    Title := "", UserID := "" }

/-- The three records of the tasks scenario of the specification, at the current time `T`. -/
def scenarioTasks (T : Int) : List Task :=
  [openTask (T - 86400), doneTask T (T - 3600), doneTask T (T + 3600)]

end tasks

/-! ## `database/sql` and the MySQL server, as far as the stores use them -/

namespace sql

/-- A Go `error` value, as far as the store code tells errors apart: the sentinels
`sql.ErrNoRows` and `driver.ErrBadConn`, a `*mysql.MySQLError` with its number, and an error
built from a message by `fmt.Errorf`. -/
inductive GoError where
  | ErrNoRows
  | ErrBadConn
  | MySQLError (Number : Nat) (Message : String)
  | Errorf (message : String)
deriving DecidableEq, Repr

/-- The method `Error()`, which is what the verb `%v` prints for an error. -/
def GoError.Error : GoError → String
  | .ErrNoRows => "sql: no rows in result set"
  | .ErrBadConn => "driver: bad connection"
  | .MySQLError number message => "Error " ++ toString number ++ ": " ++ message
  | .Errorf message => message

/-- The interface `sql.Result`: each of its two methods returns a number or an error. -/
structure Result where
  LastInsertId : Except GoError Int
  RowsAffected : Except GoError Int

/-- The struct `sql.NullString`. -/
structure NullString where
  String : String
  Valid : Bool
deriving DecidableEq, Repr

/-- `Scan` of a nullable `TEXT` column into a `sql.NullString`: NULL gives the zero value. -/
def scanNullString : Option String → NullString
  | some s => ⟨s, true⟩
  | none => ⟨"", false⟩

/-- `Scan` of a nullable `INT UNSIGNED` column into a Go `int`: NULL cannot be converted. -/
def scanInt (columnIndex : Nat) : Option Nat → Except GoError Int
  | some n => .ok n
  | none => .error (.Errorf ("sql: Scan error on column index " ++ toString columnIndex
      ++ ": converting NULL to int is unsupported"))

/-- Largest value of an `INT UNSIGNED` column. -/
def maxIntUnsigned : Int := 4294967295

/-- Largest byte length of a `TEXT` column. -/
def maxTextBytes : Nat := 65535

/-- The value a server outside strict SQL mode stores in an `INT UNSIGNED` column for a
number outside the domain of the column: the nearest end of the domain. -/
def clipIntUnsigned (v : Int) : Nat :=
  if v < 0 then 0 else if maxIntUnsigned < v then maxIntUnsigned.toNat else v.toNat

/-- A Go `int` bound to a parameter that is stored in an `INT UNSIGNED` column.  A value of
the domain is stored as it is.  The code sets no SQL mode, so the mode of the server decides
what happens to a value outside the domain: in strict mode the statement fails (error 1264),
otherwise the value is clipped. -/
def intUnsignedColumn (strict : Bool) (v : Int) : Except GoError (Option Nat) :=
  if 0 ≤ v ∧ v ≤ maxIntUnsigned then .ok (some v.toNat)
  else if strict then .error (.MySQLError 1264 "Out of range value")
  else .ok (some (clipIntUnsigned v))

/-- A Go `int` that an `INT UNSIGNED` column holds unchanged. -/
def fitsIntUnsigned (v : Int) : Bool := decide (0 ≤ v ∧ v ≤ maxIntUnsigned)

/-- A string that a `TEXT` column of the `utf8` character set holds unchanged: at most three
bytes per character and at most `maxTextBytes` bytes in all. -/
def fitsText (s : String) : Bool :=
  s.data.all (fun c => decide (c.toNat < 65536)) && decide (s.utf8ByteSize ≤ maxTextBytes)

/-- The longest prefix of the characters in which every character takes at most three bytes
and which takes at most `room` bytes in all. -/
def truncateChars : List Char → Nat → List Char
  | [], _ => []
  | c :: cs, room =>
    if c.toNat < 65536 ∧ c.utf8Size ≤ room then c :: truncateChars cs (room - c.utf8Size)
    else []

/-- The value a server outside strict SQL mode stores in a `TEXT` column for a text that does
not fit: the text cut before the first character that does not fit. -/
def truncateText (s : String) : String := ⟨truncateChars s.data maxTextBytes⟩

/-- A Go `string` bound to a parameter that is stored in a `TEXT` column.  A text that fits
is stored as it is.  For a text that does not fit the mode of the server decides: in strict
mode the statement fails, otherwise the text is truncated. -/
def textColumn (strict : Bool) (s : String) : Except GoError (Option String) :=
  if fitsText s then .ok (some s)
  else if strict then .error (.MySQLError 1406 "Data too long or incorrect string value")
  else .ok (some (truncateText s))

end sql

namespace habits

/-! ## habits/habits_db_mysql.go -/

/-- The nine arguments bound to `insertStatement`, in the order of its column list. -/
structure InsertArgs where
  red : Int
  orange : Int
  yellow : Int
  green : Int
  blue : Int
  worst_name : String
  worst_title : String
  best_name : String
  best_title : String
deriving DecidableEq, Repr

/-- The ten values `scanHabitsReport` scans a row into, in the order of its destinations. -/
structure ScannedRow where
  reportId : Int
  red : Int
  orange : Int
  yellow : Int
  green : Int
  blue : Int
  worstName : sql.NullString
  worstTitle : sql.NullString
  bestName : sql.NullString
  bestTitle : sql.NullString
deriving DecidableEq, Repr

/-- The interface `rowScanner`: its one method `Scan` either fails or fills the ten
destinations. -/
structure rowScanner where
  Scan : Except sql.GoError ScannedRow

/-- The struct `mysqlDB` over a connection whose server state has type `σ`: the prepared
statement `insert` (its method `Exec`, which may change the state) and the prepared statement
`get` (its method `QueryRow`, which only reads). -/
structure mysqlDB (σ : Type) where
  insert : InsertArgs → σ → Except sql.GoError sql.Result × σ
  get : Int → σ → rowScanner

/-- The function `scanHabitsReport`; the Go pair `(*HabitsReport, error)` is a pair of
options, `none` for `nil`. -/
def scanHabitsReport (s : rowScanner) : Option HabitsReport × Option sql.GoError :=
  match s.Scan with
  | .error err => (none, some err)
  | .ok v =>
    (some { ReportID := v.reportId,
            RangeCount := ⟨v.red, v.orange, v.yellow, v.green, v.blue⟩,
            Worst := ⟨v.worstName.String, v.worstTitle.String⟩,
            Best := ⟨v.bestName.String, v.bestTitle.String⟩ }, none)

/-- The function `execAffectingOneRow` applied to the `Exec` method of a statement.  The Go
pair `(sql.Result, error)` is an `Except`: the callers drop the result when the error is not
nil. -/
def execAffectingOneRow {σ Args : Type} (stmt : Args → σ → Except sql.GoError sql.Result × σ)
    (args : Args) (s : σ) : Except sql.GoError sql.Result × σ :=
  match stmt args s with
  | (.error err, s1) =>
    (.error (.Errorf ("mysql: could not execute statement: " ++ err.Error)), s1)
  | (.ok result, s1) =>
    match result.RowsAffected with
    | .error err => (.error (.Errorf ("mysql: could not get rows affected: " ++ err.Error)), s1)
    | .ok rowsAffected =>
      if rowsAffected ≠ 1 then
        (.error (.Errorf ("mysql: expected 1 row affected, got " ++ toString rowsAffected)), s1)
      else (.ok result, s1)

/-- The method `GetHabitsReport`. -/
def GetHabitsReport {σ : Type} (db : mysqlDB σ) (reportId : Int) (s : σ) :
    Option HabitsReport × Option sql.GoError :=
  match scanHabitsReport (db.get reportId s) with
  | (report, err) =>
    if err = some sql.GoError.ErrNoRows then
      (none, some (.Errorf ("msql: could not find report with id " ++ toString reportId)))
    else
      match err with
      | some e => (none, some (.Errorf ("mysql: could not get habits report: " ++ e.Error)))
      | none => (report, none)

/-- The arguments `AddHabitsReport` passes to `execAffectingOneRow` after the statement: the fields
of the report other than `ReportID`. -/
def insertArgs (report : HabitsReport) : InsertArgs :=
  { red := report.RangeCount.Red, orange := report.RangeCount.Orange,
    yellow := report.RangeCount.Yellow, green := report.RangeCount.Green,
    blue := report.RangeCount.Blue, worst_name := report.Worst.User,
    worst_title := report.Worst.Title, best_name := report.Best.User,
    best_title := report.Best.Title }

/-- The method `AddHabitsReport`; it returns the pair `(reportId, err)` and the new server
state. -/
def AddHabitsReport {σ : Type} (db : mysqlDB σ) (report : HabitsReport) (s : σ) :
    (Int × Option sql.GoError) × σ :=
  match execAffectingOneRow db.insert (insertArgs report) s with
  | (.error err, s1) => ((0, some err), s1)
  | (.ok result, s1) =>
    match result.LastInsertId with
    | .error err =>
      ((0, some (.Errorf ("mysql: could not get last insert ID: " ++ err.Error))), s1)
    | .ok lastInsertID => ((lastInsertID, none), s1)

/-! ### The table `habits_reports` -/

/-- A row of `habits_reports`, column by column as `createTableStatements` declares them:
`report_id INT UNSIGNED NOT NULL`, five nullable `INT UNSIGNED` and four nullable `TEXT`. -/
structure Row where
  report_id : Nat
  red : Option Nat
  orange : Option Nat
  yellow : Option Nat
  green : Option Nat
  blue : Option Nat
  worst_name : Option String
  worst_title : Option String
  best_name : Option String
  best_title : Option String
deriving DecidableEq, Repr

/-- The table `habits_reports`: its rows in insertion order, the next value of the
`AUTO_INCREMENT` counter of `report_id`, and whether the server runs in strict SQL mode. -/
structure Table where
  rows : List Row
  autoIncrement : Nat
  strict : Bool
deriving DecidableEq, Repr

/-- The table as `createTable` leaves it, no row and counter at 1, on a server in strict SQL
mode. -/
def Table.empty : Table := { rows := [], autoIncrement := 1, strict := true }

/-- The table as `createTable` leaves it, on a server that is not in strict SQL mode. -/
def Table.emptyLenient : Table := { rows := [], autoIncrement := 1, strict := false }

/-- Every stored `report_id` is below the counter, so the counter hands out fresh keys. -/
def Table.WF (t : Table) : Prop := ∀ r ∈ t.rows, r.report_id < t.autoIncrement

/-- The columns of the row that `insertStatement` stores for the given arguments. -/
def insertColumns (strict : Bool) (reportId : Nat) (a : InsertArgs) :
    Except sql.GoError Row := do
  let red ← sql.intUnsignedColumn strict a.red
  let orange ← sql.intUnsignedColumn strict a.orange
  let yellow ← sql.intUnsignedColumn strict a.yellow
  let green ← sql.intUnsignedColumn strict a.green
  let blue ← sql.intUnsignedColumn strict a.blue
  let worst_name ← sql.textColumn strict a.worst_name
  let worst_title ← sql.textColumn strict a.worst_title
  let best_name ← sql.textColumn strict a.best_name
  let best_title ← sql.textColumn strict a.best_title
  pure { report_id := reportId, red := red, orange := orange, yellow := yellow,
         green := green, blue := blue, worst_name := worst_name,
         worst_title := worst_title, best_name := best_name, best_title := best_title }

/-- Execution of `insertStatement` on the table: the row gets the next `report_id`, one row
is affected and the key is the last insert id; the statement fails when a column refuses its
value or the counter has passed the largest `INT UNSIGNED`. -/
def Table.insert (a : InsertArgs) (t : Table) : Except sql.GoError sql.Result × Table :=
  match insertColumns t.strict t.autoIncrement a with
  | .error err => (.error err, t)
  | .ok row =>
    if (t.autoIncrement : Int) ≤ sql.maxIntUnsigned then
      (.ok { LastInsertId := .ok t.autoIncrement, RowsAffected := .ok 1 },
        { t with rows := t.rows ++ [row], autoIncrement := t.autoIncrement + 1 })
    else (.error (.MySQLError 1467 "Failed to read auto-increment value from storage engine"), t)

/-- The method `Scan` of the row a query returned: the columns are converted one by one, in
the order of the destinations. -/
def Row.Scan (r : Row) : Except sql.GoError ScannedRow := do
  let red ← sql.scanInt 1 r.red
  let orange ← sql.scanInt 2 r.orange
  let yellow ← sql.scanInt 3 r.yellow
  let green ← sql.scanInt 4 r.green
  let blue ← sql.scanInt 5 r.blue
  pure { reportId := r.report_id, red := red, orange := orange, yellow := yellow,
         green := green, blue := blue,
         worstName := sql.scanNullString r.worst_name,
         worstTitle := sql.scanNullString r.worst_title,
         bestName := sql.scanNullString r.best_name,
         bestTitle := sql.scanNullString r.best_title }

/-- Execution of `getStatement` by `QueryRow`: the row whose `report_id` is the argument, if
there is one; `Scan` reports `sql.ErrNoRows` when there is none. -/
def Table.queryRow (reportId : Int) (t : Table) : rowScanner :=
  match t.rows.find? (fun r => decide ((r.report_id : Int) = reportId)) with
  | none => ⟨.error .ErrNoRows⟩
  | some r => ⟨r.Scan⟩

/-- The store over the table `habits_reports`. -/
def tableDB : mysqlDB Table := { insert := Table.insert, get := Table.queryRow }

/-- Every count of the report fits an `INT UNSIGNED` column and every text a `TEXT` column. -/
def storable (report : HabitsReport) : Bool :=
  sql.fitsIntUnsigned report.RangeCount.Red && sql.fitsIntUnsigned report.RangeCount.Orange
    && sql.fitsIntUnsigned report.RangeCount.Yellow && sql.fitsIntUnsigned report.RangeCount.Green
    && sql.fitsIntUnsigned report.RangeCount.Blue
    && sql.fitsText report.Worst.User && sql.fitsText report.Worst.Title
    && sql.fitsText report.Best.User && sql.fitsText report.Best.Title

/-- The row that holds the fields of a storable report under the key `reportId`. -/
def storedRow (reportId : Nat) (report : HabitsReport) : Row :=
  { report_id := reportId, red := some report.RangeCount.Red.toNat,
    orange := some report.RangeCount.Orange.toNat,
    yellow := some report.RangeCount.Yellow.toNat,
    green := some report.RangeCount.Green.toNat, blue := some report.RangeCount.Blue.toNat,
    worst_name := some report.Worst.User, worst_title := some report.Worst.Title,
    best_name := some report.Best.User, best_title := some report.Best.Title }

/-- A report with a count that is not negative and does not fit an `INT UNSIGNED` column. -/
def wideReport : HabitsReport :=
  { ReportID := 0, RangeCount := ⟨4294967296, 0, 0, 0, 0⟩, Worst := ⟨"u1", "t1"⟩,
    Best := ⟨"u2", "t2"⟩ }

/-- A report with a title outside the three-byte range of the `utf8` character set. -/
def emojiReport : HabitsReport :=
  { ReportID := 0, RangeCount := ⟨1, 0, 0, 0, 0⟩,
    Worst := ⟨"u1", String.singleton (Char.ofNat 128512)⟩, Best := ⟨"u2", "t2"⟩ }

/-- A store whose insert statement answers every execution with the same outcome and leaves
the state alone, and whose query finds no row. -/
def fixedDB (outcome : Except sql.GoError sql.Result) : mysqlDB Unit :=
  { insert := fun _ s => (outcome, s), get := fun _ _ => ⟨.error .ErrNoRows⟩ }

/-- The report of the habits scenario of the specification, not yet persisted. -/
def scenarioReport : HabitsReport :=
  { ReportID := 0, RangeCount := ⟨1, 0, 0, 0, 1⟩, Worst := ⟨"u1", "t1"⟩, Best := ⟨"u2", "t2"⟩ }

end habits

namespace tasks

/-! ## tasks/tasks_db_mysql.go -/

/-- The six arguments bound to `insertStatement`, in the order of its column list. -/
structure InsertArgs where
  completed_total : Int
  completed_on_time : Int
  completed_late : Int
  delayed_tasks : Int
  available_total : Int
  available_due_today : Int
deriving DecidableEq, Repr

/-- The seven values `scanTasksReport` scans a row into, in the order of its destinations. -/
structure ScannedRow where
  reportId : Int
  completedTotal : Int
  completedOnTime : Int
  completedLate : Int
  delayed : Int
  availableTotal : Int
  availableDueToday : Int
deriving DecidableEq, Repr

/-- The interface `rowScanner`: its one method `Scan` either fails or fills the seven
destinations. -/
structure rowScanner where
  Scan : Except sql.GoError ScannedRow

/-- The struct `mysqlDB` over a connection whose server state has type `σ`: the prepared
statement `insert` (its method `Exec`, which may change the state) and the prepared statement
`get` (its method `QueryRow`, which only reads). -/
structure mysqlDB (σ : Type) where
  insert : InsertArgs → σ → Except sql.GoError sql.Result × σ
  get : Int → σ → rowScanner

/-- The function `scanTasksReport`; the Go pair `(*TasksReport, error)` is a pair of options,
`none` for `nil`. -/
def scanTasksReport (s : rowScanner) : Option TasksReport × Option sql.GoError :=
  match s.Scan with
  | .error err => (none, some err)
  | .ok v =>
    (some { ReportID := v.reportId,
            Completed := ⟨v.completedTotal, v.completedOnTime, v.completedLate⟩,
            Delayed := v.delayed,
            Available := ⟨v.availableTotal, v.availableDueToday⟩ }, none)

/-- The function `execAffectingOneRow` applied to the `Exec` method of a statement.  The Go
pair `(sql.Result, error)` is an `Except`: the callers drop the result when the error is not
nil. -/
def execAffectingOneRow {σ Args : Type} (stmt : Args → σ → Except sql.GoError sql.Result × σ)
    (args : Args) (s : σ) : Except sql.GoError sql.Result × σ :=
  match stmt args s with
  | (.error err, s1) =>
    (.error (.Errorf ("mysql: could not execute statement: " ++ err.Error)), s1)
  | (.ok result, s1) =>
    match result.RowsAffected with
    | .error err => (.error (.Errorf ("mysql: could not get rows affected: " ++ err.Error)), s1)
    | .ok rowsAffected =>
      if rowsAffected ≠ 1 then
        (.error (.Errorf ("mysql: expected 1 row affected, got " ++ toString rowsAffected)), s1)
      else (.ok result, s1)

/-- The method `GetTasksReport`. -/
def GetTasksReport {σ : Type} (db : mysqlDB σ) (reportId : Int) (s : σ) :
    Option TasksReport × Option sql.GoError :=
  match scanTasksReport (db.get reportId s) with
  | (report, err) =>
    if err = some sql.GoError.ErrNoRows then
      (none, some (.Errorf ("msql: could not find report with id " ++ toString reportId)))
    else
      match err with
      | some e => (none, some (.Errorf ("mysql: could not get tasks report: " ++ e.Error)))
      | none => (report, none)

/-- The arguments `AddTasksReport` passes to `execAffectingOneRow` after the statement: the fields
of the report other than `ReportID`. -/
def insertArgs (report : TasksReport) : InsertArgs :=
  { completed_total := report.Completed.Total, completed_on_time := report.Completed.OnTime,
    completed_late := report.Completed.Late, delayed_tasks := report.Delayed,
    available_total := report.Available.Total,
    available_due_today := report.Available.DueToday }

/-- The method `AddTasksReport`; it returns the pair `(reportId, err)` and the new server
state. -/
def AddTasksReport {σ : Type} (db : mysqlDB σ) (report : TasksReport) (s : σ) :
    (Int × Option sql.GoError) × σ :=
  match execAffectingOneRow db.insert (insertArgs report) s with
  | (.error err, s1) => ((0, some err), s1)
  | (.ok result, s1) =>
    match result.LastInsertId with
    | .error err =>
      ((0, some (.Errorf ("mysql: could not get last insert ID: " ++ err.Error))), s1)
    | .ok lastInsertID => ((lastInsertID, none), s1)

/-! ### The table `tasks_reports` -/

/-- A row of `tasks_reports`, column by column as `createTableStatements` declares them:
`report_id INT UNSIGNED NOT NULL` and six nullable `INT UNSIGNED`. -/
structure Row where
  report_id : Nat
  completed_total : Option Nat
  completed_on_time : Option Nat
  completed_late : Option Nat
  delayed_tasks : Option Nat
  available_total : Option Nat
  available_due_today : Option Nat
deriving DecidableEq, Repr

/-- The table `tasks_reports`: its rows in insertion order, the next value of the
`AUTO_INCREMENT` counter of `report_id`, and whether the server runs in strict SQL mode. -/
structure Table where
  rows : List Row
  autoIncrement : Nat
  strict : Bool
deriving DecidableEq, Repr

/-- The table as `createTable` leaves it, no row and counter at 1, on a server in strict SQL
mode. -/
def Table.empty : Table := { rows := [], autoIncrement := 1, strict := true }

/-- The table as `createTable` leaves it, on a server that is not in strict SQL mode. -/
def Table.emptyLenient : Table := { rows := [], autoIncrement := 1, strict := false }

/-- Every stored `report_id` is below the counter, so the counter hands out fresh keys. -/
def Table.WF (t : Table) : Prop := ∀ r ∈ t.rows, r.report_id < t.autoIncrement

/-- The columns of the row that `insertStatement` stores for the given arguments. -/
def insertColumns (strict : Bool) (reportId : Nat) (a : InsertArgs) :
    Except sql.GoError Row := do
  let completed_total ← sql.intUnsignedColumn strict a.completed_total
  let completed_on_time ← sql.intUnsignedColumn strict a.completed_on_time
  let completed_late ← sql.intUnsignedColumn strict a.completed_late
  let delayed_tasks ← sql.intUnsignedColumn strict a.delayed_tasks
  let available_total ← sql.intUnsignedColumn strict a.available_total
  let available_due_today ← sql.intUnsignedColumn strict a.available_due_today
  pure { report_id := reportId, completed_total := completed_total,
         completed_on_time := completed_on_time, completed_late := completed_late,
         delayed_tasks := delayed_tasks, available_total := available_total,
         available_due_today := available_due_today }

/-- Execution of `insertStatement` on the table: the row gets the next `report_id`, one row
is affected and the key is the last insert id; the statement fails when a column refuses its
value or the counter has passed the largest `INT UNSIGNED`. -/
def Table.insert (a : InsertArgs) (t : Table) : Except sql.GoError sql.Result × Table :=
  match insertColumns t.strict t.autoIncrement a with
  | .error err => (.error err, t)
  | .ok row =>
    if (t.autoIncrement : Int) ≤ sql.maxIntUnsigned then
      (.ok { LastInsertId := .ok t.autoIncrement, RowsAffected := .ok 1 },
        { t with rows := t.rows ++ [row], autoIncrement := t.autoIncrement + 1 })
    else (.error (.MySQLError 1467 "Failed to read auto-increment value from storage engine"), t)

/-- The method `Scan` of the row a query returned: the columns are converted one by one, in
the order of the destinations. -/
def Row.Scan (r : Row) : Except sql.GoError ScannedRow := do
  let completedTotal ← sql.scanInt 1 r.completed_total
  let completedOnTime ← sql.scanInt 2 r.completed_on_time
  let completedLate ← sql.scanInt 3 r.completed_late
  let delayed ← sql.scanInt 4 r.delayed_tasks
  let availableTotal ← sql.scanInt 5 r.available_total
  let availableDueToday ← sql.scanInt 6 r.available_due_today
  pure { reportId := r.report_id, completedTotal := completedTotal,
         completedOnTime := completedOnTime, completedLate := completedLate,
         delayed := delayed, availableTotal := availableTotal,
         availableDueToday := availableDueToday }

/-- Execution of `getStatement` by `QueryRow`: the row whose `report_id` is the argument, if
there is one; `Scan` reports `sql.ErrNoRows` when there is none. -/
def Table.queryRow (reportId : Int) (t : Table) : rowScanner :=
  match t.rows.find? (fun r => decide ((r.report_id : Int) = reportId)) with
  | none => ⟨.error .ErrNoRows⟩
  | some r => ⟨r.Scan⟩

/-- The store over the table `tasks_reports`. -/
def tableDB : mysqlDB Table := { insert := Table.insert, get := Table.queryRow }

/-- Every count of the report fits an `INT UNSIGNED` column. -/
def storable (report : TasksReport) : Bool :=
  sql.fitsIntUnsigned report.Completed.Total && sql.fitsIntUnsigned report.Completed.OnTime
    && sql.fitsIntUnsigned report.Completed.Late && sql.fitsIntUnsigned report.Delayed
    && sql.fitsIntUnsigned report.Available.Total
    && sql.fitsIntUnsigned report.Available.DueToday

/-- The row that holds the fields of a storable report under the key `reportId`. -/
def storedRow (reportId : Nat) (report : TasksReport) : Row :=
  { report_id := reportId, completed_total := some report.Completed.Total.toNat,
    completed_on_time := some report.Completed.OnTime.toNat,
    completed_late := some report.Completed.Late.toNat,
    delayed_tasks := some report.Delayed.toNat,
    available_total := some report.Available.Total.toNat,
    available_due_today := some report.Available.DueToday.toNat }

/-- A report with a count that is not negative and does not fit an `INT UNSIGNED` column. -/
def wideReport : TasksReport :=
  { ReportID := 0, Completed := ⟨4294967296, 4294967296, 0⟩, Delayed := 0, Available := ⟨0, 0⟩ }

/-- A store whose insert statement answers every execution with the same outcome and leaves
the state alone, and whose query finds no row. -/
def fixedDB (outcome : Except sql.GoError sql.Result) : mysqlDB Unit :=
  { insert := fun _ s => (outcome, s), get := fun _ _ => ⟨.error .ErrNoRows⟩ }

/-- The report of the tasks scenario of the specification, not yet persisted. -/
def scenarioReport : TasksReport :=
  { ReportID := 0, Completed := ⟨2, 1, 1⟩, Delayed := 1, Available := ⟨1, 0⟩ }

end tasks

/-! ## Slice reads with their bounds check, and report generation -/

namespace Go

/-- The loop `for i, _ := range xs` whose body updates an accumulator from `xs[i]`, with the
bounds check of every read `xs[i]`: `none` is the run-time fault of an index out of range. -/
def forRange {α β : Type} (xs : List α) (body : β → α → β) (init : β) : Option β :=
  (List.range xs.length).foldlM (fun acc i => (xs[i]?).map (body acc)) init

end Go

namespace habits

def HABITS_URL : String := "https://habits-microservice-marcorob.c9users.io"

/-- The function `createHabitRange` with every read `allHabits[i]` bounds-checked. -/
def createHabitRangeChecked (allHabits : List Habit) : Option HabitRange :=
  Go.forRange allHabits createHabitRangeStep ⟨0, 0, 0, 0, 0⟩

/-- The function `findWorstHabit` with every slice read bounds-checked: `allHabits[0]` before
the loop and `allHabits[i]` inside it. -/
def findWorstHabitChecked (allHabits : List Habit) : Option HabitDescription := do
  let first ← allHabits[0]?
  let currentWorst ← Go.forRange allHabits findWorstHabitStep first
  pure ⟨currentWorst.UserID, currentWorst.Title⟩

/-- The function `findBestHabit` with every slice read bounds-checked: `allHabits[0]` before
the loop and `allHabits[i]` inside it. -/
def findBestHabitChecked (allHabits : List Habit) : Option HabitDescription := do
  let first ← allHabits[0]?
  let currentBest ← Go.forRange allHabits findBestHabitStep first
  pure ⟨currentBest.UserID, currentBest.Title⟩

/-- The function `fetchDatabaseAllHabits`.  Its parameter stands for `http.Get` followed by
the JSON decoder: the request fails, or it yields a response whose body the decoder rejects
or turns into a slice of habits.  `errors.New` builds an error from its message. -/
def fetchDatabaseAllHabits
    (httpGet : String → Except sql.GoError (Except sql.GoError (List Habit))) :
    List Habit × Option sql.GoError :=
  match httpGet (HABITS_URL ++ "/habits") with
  | .error _ => ([], some (.Errorf "Habits unavailable"))
  | .ok body =>
    match body with
    | .error _ => ([], some (.Errorf "Error decoding Habits"))
    | .ok jsonArray => (jsonArray, none)

/-- The function `GenerateHabitsReport`: `none` is a run-time fault, `some` the returned pair
`(HabitsReport, error)`. -/
def GenerateHabitsReport
    (httpGet : String → Except sql.GoError (Except sql.GoError (List Habit))) :
    Option (HabitsReport × Option sql.GoError) :=
  match fetchDatabaseAllHabits httpGet with
  | (_, some err) =>
    some ({ ReportID := 0, RangeCount := ⟨0, 0, 0, 0, 0⟩, Worst := ⟨"", ""⟩, Best := ⟨"", ""⟩ },
      some err)
  | (allHabits, none) => do
    let rangeCount := createHabitRange allHabits
    let worst ← findWorstHabit allHabits
    let best ← findBestHabit allHabits
    pure ({ ReportID := 0, RangeCount := rangeCount, Worst := worst, Best := best }, none)

end habits

namespace sql

/-- The test `mErr, ok := err.(*mysql.MySQLError); ok && mErr.Number == number`. -/
def GoError.isMySQLError (err : GoError) (number : Nat) : Bool :=
  match err with
  | .MySQLError n _ => decide (n = number)
  | _ => false

end sql

namespace habits

/-! ### habits/habits_db_mysql.go: construction of the store -/

def dbDoesNotExistError : Nat := 1049

def tableDoesNotExistError : Nat := 1146

def insertStatement : String :=
  "\n"
    ++ "\t\tINSERT INTO habits_reports(\n"
    ++ "\t\t\tred, orange, yellow, green, blue, worst_name,\n"
    ++ "\t\t\t\tworst_title, best_name, best_title\n"
    ++ "\t\t)\n"
    ++ "\t\tVALUES (?, ?, ?, ?, ?, ?, ?, ?, ?);\n"
    ++ "\t"

def getStatement : String :=
  "\n"
    ++ "\t\tSELECT *\n"
    ++ "\t\tFROM habits_reports\n"
    ++ "\t\tWHERE report_id = ?;\n"
    ++ "\t"

def createTableStatements : List String :=
  [ "CREATE DATABASE IF NOT EXISTS arqui DEFAULT CHARACTER SET = 'utf8' DEFAULT COLLATE 'utf8_general_ci';",
    "USE arqui;",
    "CREATE TABLE IF NOT EXISTS habits_reports (\n"
      ++ "\t\treport_id INT UNSIGNED NOT NULL AUTO_INCREMENT PRIMARY KEY,\n"
      ++ "\t\tred INT UNSIGNED,\n"
      ++ "\t\torange INT UNSIGNED,\n"
      ++ "\t\tyellow INT UNSIGNED,\n"
      ++ "\t\tgreen INT UNSIGNED,\n"
      ++ "\t\tblue INT UNSIGNED,\n"
      ++ "\t\tworst_name TEXT,\n"
      ++ "\t\tworst_title TEXT,\n"
      ++ "\t\tbest_name TEXT,\n"
      ++ "\t\tbest_title TEXT\n"
      ++ "\t);" ]

structure MySQLConfig where
  Username : String
  Password : String
  Host : String
  Port : Int
deriving DecidableEq, Repr

/-- The method `dataStoreName`: the connection string for `sql.Open`. -/
def MySQLConfig.dataStoreName (c : MySQLConfig) (dbName : String) : String :=
  let credentials :=
    if c.Username ≠ "" then
      (if c.Password ≠ "" then c.Username ++ ":" ++ c.Password else c.Username) ++ "@"
    else ""
  credentials ++ "tcp([" ++ c.Host ++ "]:" ++ toString c.Port ++ ")/" ++ dbName

/-- The handle `*sql.DB` over a server whose state has type `σ`.  `Ping` and `Exec` return
the error (the result of `Exec` is dropped by the callers) and the new state.  `Prepare`
appears once per kind of statement, since a prepared statement is kept with the type of its
arguments: `PrepareGet` for the query, `PrepareInsert` for the insert. -/
structure Conn (σ : Type) where
  Ping : σ → Option sql.GoError × σ
  Exec : String → σ → Option sql.GoError × σ
  PrepareGet : String → Except sql.GoError (Int → σ → rowScanner)
  PrepareInsert :
    String → Except sql.GoError (InsertArgs → σ → Except sql.GoError sql.Result × σ)

/-- The loop of `createTable` over the statements still to run: the first error is
returned and ends the loop. -/
def createTableLoop {σ : Type} (conn : Conn σ) : List String → σ → Option sql.GoError × σ
  | [], s => (none, s)
  | stmt :: rest, s =>
    match conn.Exec stmt s with
    | (some err, s1) => (some err, s1)
    | (none, s1) => createTableLoop conn rest s1

/-- The function `createTable`. -/
def createTable {σ : Type} (conn : Conn σ) (s : σ) : Option sql.GoError × σ :=
  createTableLoop conn createTableStatements s

/-- The method `ensureTableExists`; `driverOpen` is `sql.Open`.  The deferred `conn.Close()`
runs no statement and is left out. -/
def ensureTableExists {σ : Type} (driverOpen : String → String → Except sql.GoError (Conn σ))
    (config : MySQLConfig) (s : σ) : Option sql.GoError × σ :=
  match driverOpen "mysql" (config.dataStoreName "") with
  | .error err => (some (.Errorf ("mysql: could not get a connection: " ++ err.Error)), s)
  | .ok conn =>
    match conn.Ping s with
    | (pingErr, s1) =>
      if pingErr = some sql.GoError.ErrBadConn then
        (some (.Errorf "mysql: could not connect to db. "), s1)
      else
        match conn.Exec "USE arqui" s1 with
        | (useErr, s2) =>
          if useErr.any (fun err => err.isMySQLError dbDoesNotExistError) then
            createTable conn s2
          else
            match conn.Exec "DESCRIBE habits_reports" s2 with
            | (none, s3) => (none, s3)
            | (some err, s3) =>
              if err.isMySQLError tableDoesNotExistError then createTable conn s3
              else (some (.Errorf ("mysql: could not connect to db: " ++ err.Error)), s3)

/-- The function `newMySQLDB`; it returns the pair `(store, err)` and the new server state.
The second `if err != nil` after `sql.Open` repeats the first and is never taken. -/
def newMySQLDB {σ : Type} (driverOpen : String → String → Except sql.GoError (Conn σ))
    (config : MySQLConfig) (s : σ) : (Option (mysqlDB σ) × Option sql.GoError) × σ :=
  match ensureTableExists driverOpen config s with
  | (some err, s1) => ((none, some err), s1)
  | (none, s1) =>
    match driverOpen "mysql" (config.dataStoreName "arqui") with
    | .error err =>
      ((none, some (.Errorf ("mysql: could not get a connection: " ++ err.Error))), s1)
    | .ok conn =>
      match conn.PrepareGet getStatement with
      | .error err => ((none, some (.Errorf ("mysql: prepare get: " ++ err.Error))), s1)
      | .ok get =>
        match conn.PrepareInsert insertStatement with
        | .error err => ((none, some (.Errorf ("mysql: prepare insert: " ++ err.Error))), s1)
        | .ok insert => ((some { insert := insert, get := get }, none), s1)

/-- A server with scripted answers: `ping` to `Ping`, `use` to the statement `USE arqui`,
`describe` to the statement `DESCRIBE habits_reports`, success to every other statement.  Its
state is the list of the statements executed so far; it prepares no statement. -/
def scriptedConn (ping use describe : Option sql.GoError) : Conn (List String) :=
  { Ping := fun log => (ping, log),
    Exec := fun stmt log =>
      (if stmt = "USE arqui" then use
        else if stmt = "DESCRIBE habits_reports" then describe else none, log ++ [stmt]),
    PrepareGet := fun _ => .error (.Errorf "no statement is prepared"),
    PrepareInsert := fun _ => .error (.Errorf "no statement is prepared") }

/-- The configuration `configureCloudSQL` builds. -/
def cloudSQLConfig : MySQLConfig :=
  { Username := "root", Password := "admin", Host := "localhost", Port := 3306 }

end habits

namespace tasks

/-! ### tasks/tasks_db_mysql.go: construction of the store -/

def dbDoesNotExistError : Nat := 1049

def tableDoesNotExistError : Nat := 1146

def insertStatement : String :=
  "\n"
    ++ "\t\tINSERT INTO tasks_reports(\n"
    ++ "\t\t\tcompleted_total, completed_on_time, completed_late, delayed_tasks,\n"
    ++ "\t\t\t\tavailable_total, available_due_today\n"
    ++ "\t\t)\n"
    ++ "\t\tVALUES (?, ?, ?, ?, ?, ?);\n"
    ++ "\t"

def getStatement : String :=
  "\n"
    ++ "\t\tSELECT *\n"
    ++ "\t\tFROM tasks_reports\n"
    ++ "\t\tWHERE report_id = ?;\n"
    ++ "\t"

def createTableStatements : List String :=
  [ "CREATE DATABASE IF NOT EXISTS arqui DEFAULT CHARACTER SET = 'utf8' DEFAULT COLLATE 'utf8_general_ci';",
    "USE arqui;",
    "CREATE TABLE IF NOT EXISTS tasks_reports (\n"
      ++ "\t\treport_id INT UNSIGNED NOT NULL AUTO_INCREMENT PRIMARY KEY,\n"
      ++ "\t\tcompleted_total INT UNSIGNED,\n"
      ++ "\t\tcompleted_on_time INT UNSIGNED,\n"
      ++ "\t\tcompleted_late INT UNSIGNED,\n"
      ++ "\t\tdelayed_tasks INT UNSIGNED,\n"
      ++ "\t\tavailable_total INT UNSIGNED,\n"
      ++ "\t\tavailable_due_today INT UNSIGNED\n"
      ++ "\t);" ]

structure MySQLConfig where
  Username : String
  Password : String
  Host : String
  Port : Int
deriving DecidableEq, Repr

/-- The method `dataStoreName`: the connection string for `sql.Open`. -/
def MySQLConfig.dataStoreName (c : MySQLConfig) (dbName : String) : String :=
  let credentials :=
    if c.Username ≠ "" then
      (if c.Password ≠ "" then c.Username ++ ":" ++ c.Password else c.Username) ++ "@"
    else ""
  credentials ++ "tcp([" ++ c.Host ++ "]:" ++ toString c.Port ++ ")/" ++ dbName

/-- The handle `*sql.DB` over a server whose state has type `σ`.  `Ping` and `Exec` return
the error (the result of `Exec` is dropped by the callers) and the new state.  `Prepare`
appears once per kind of statement, since a prepared statement is kept with the type of its
arguments: `PrepareGet` for the query, `PrepareInsert` for the insert. -/
structure Conn (σ : Type) where
  Ping : σ → Option sql.GoError × σ
  Exec : String → σ → Option sql.GoError × σ
  PrepareGet : String → Except sql.GoError (Int → σ → rowScanner)
  PrepareInsert :
    String → Except sql.GoError (InsertArgs → σ → Except sql.GoError sql.Result × σ)

/-- The loop of `createTable` over the statements still to run: the first error is
returned and ends the loop. -/
def createTableLoop {σ : Type} (conn : Conn σ) : List String → σ → Option sql.GoError × σ
  | [], s => (none, s)
  | stmt :: rest, s =>
    match conn.Exec stmt s with
    | (some err, s1) => (some err, s1)
    | (none, s1) => createTableLoop conn rest s1

/-- The function `createTable`. -/
def createTable {σ : Type} (conn : Conn σ) (s : σ) : Option sql.GoError × σ :=
  createTableLoop conn createTableStatements s

/-- The method `ensureTableExists`; `driverOpen` is `sql.Open`.  The deferred `conn.Close()`
runs no statement and is left out. -/
def ensureTableExists {σ : Type} (driverOpen : String → String → Except sql.GoError (Conn σ))
    (config : MySQLConfig) (s : σ) : Option sql.GoError × σ :=
  match driverOpen "mysql" (config.dataStoreName "") with
  | .error err => (some (.Errorf ("mysql: could not get a connection: " ++ err.Error)), s)
  | .ok conn =>
    match conn.Ping s with
    | (pingErr, s1) =>
      if pingErr = some sql.GoError.ErrBadConn then
        (some (.Errorf "mysql: could not connect to db. "), s1)
      else
        match conn.Exec "USE arqui" s1 with
        | (useErr, s2) =>
          if useErr.any (fun err => err.isMySQLError dbDoesNotExistError) then
            createTable conn s2
          else
            match conn.Exec "DESCRIBE tasks_reports" s2 with
            | (none, s3) => (none, s3)
            | (some err, s3) =>
              if err.isMySQLError tableDoesNotExistError then createTable conn s3
              else (some (.Errorf ("mysql: could not connect to db: " ++ err.Error)), s3)

/-- The function `newMySQLDB`; it returns the pair `(store, err)` and the new server state.
The second `if err != nil` after `sql.Open` repeats the first and is never taken. -/
def newMySQLDB {σ : Type} (driverOpen : String → String → Except sql.GoError (Conn σ))
    (config : MySQLConfig) (s : σ) : (Option (mysqlDB σ) × Option sql.GoError) × σ :=
  match ensureTableExists driverOpen config s with
  | (some err, s1) => ((none, some err), s1)
  | (none, s1) =>
    match driverOpen "mysql" (config.dataStoreName "arqui") with
    | .error err =>
      ((none, some (.Errorf ("mysql: could not get a connection: " ++ err.Error))), s1)
    | .ok conn =>
      match conn.PrepareGet getStatement with
      | .error err => ((none, some (.Errorf ("mysql: prepare get: " ++ err.Error))), s1)
      | .ok get =>
        match conn.PrepareInsert insertStatement with
        | .error err => ((none, some (.Errorf ("mysql: prepare insert: " ++ err.Error))), s1)
        | .ok insert => ((some { insert := insert, get := get }, none), s1)

/-- A server with scripted answers: `ping` to `Ping`, `use` to the statement `USE arqui`,
`describe` to the statement `DESCRIBE tasks_reports`, success to every other statement.  Its
state is the list of the statements executed so far; it prepares no statement. -/
def scriptedConn (ping use describe : Option sql.GoError) : Conn (List String) :=
  { Ping := fun log => (ping, log),
    Exec := fun stmt log =>
      (if stmt = "USE arqui" then use
        else if stmt = "DESCRIBE tasks_reports" then describe else none, log ++ [stmt]),
    PrepareGet := fun _ => .error (.Errorf "no statement is prepared"),
    PrepareInsert := fun _ => .error (.Errorf "no statement is prepared") }

/-- The configuration `configureCloudSQL` builds. -/
def cloudSQLConfig : MySQLConfig :=
  { Username := "root", Password := "admin", Host := "localhost", Port := 3306 }

end tasks

/-! ## Properties of the habits aggregator -/

namespace habits

theorem createHabitRangeStep_sum (acc : HabitRange) (h : Habit) :
    (createHabitRangeStep acc h).sum = acc.sum + (if knownColor h.Color then 1 else 0) := by
  unfold createHabitRangeStep
  by_cases h1 : h.Color = COLOR_RED
  · have hk : knownColor h.Color = true := by simp [knownColor, h1]
    rw [if_pos h1, hk]; simp only [HabitRange.sum, if_true]; ring
  by_cases h2 : h.Color = COLOR_ORANGE
  · have hk : knownColor h.Color = true := by simp [knownColor, h2]
    rw [if_neg h1, if_pos h2, hk]; simp only [HabitRange.sum, if_true]; ring
  by_cases h3 : h.Color = COLOR_YELLOW
  · have hk : knownColor h.Color = true := by simp [knownColor, h3]
    rw [if_neg h1, if_neg h2, if_pos h3, hk]; simp only [HabitRange.sum, if_true]; ring
  by_cases h4 : h.Color = COLOR_GREEN
  · have hk : knownColor h.Color = true := by simp [knownColor, h4]
    rw [if_neg h1, if_neg h2, if_neg h3, if_pos h4, hk]
    simp only [HabitRange.sum, if_true]; ring
  by_cases h5 : h.Color = COLOR_BLUE
  · have hk : knownColor h.Color = true := by simp [knownColor, h5]
    rw [if_neg h1, if_neg h2, if_neg h3, if_neg h4, if_pos h5, hk]
    simp only [HabitRange.sum, if_true]; ring
  · have hk : knownColor h.Color = false := by simp [knownColor, h1, h2, h3, h4, h5]
    rw [if_neg h1, if_neg h2, if_neg h3, if_neg h4, if_neg h5, hk]
    simp

theorem createHabitRangeStep_unknown (acc : HabitRange) (h : Habit)
    (hc : knownColor h.Color = false) : createHabitRangeStep acc h = acc := by
  unfold knownColor at hc
  simp only [Bool.or_eq_false_iff, decide_eq_false_iff_not] at hc
  obtain ⟨⟨⟨⟨h1, h2⟩, h3⟩, h4⟩, h5⟩ := hc
  simp [createHabitRangeStep, h1, h2, h3, h4, h5]

theorem foldl_createHabitRangeStep_sum (hs : List Habit) (acc : HabitRange) :
    (hs.foldl createHabitRangeStep acc).sum
      = acc.sum + ((hs.countP (fun h => knownColor h.Color) : Nat) : Int) := by
  induction hs generalizing acc with
  | nil => simp
  | cons h t ih =>
    rw [List.foldl_cons, ih, createHabitRangeStep_sum, List.countP_cons]
    by_cases hk : knownColor h.Color = true
    · simp [hk]; ring
    · simp [hk]

theorem foldl_createHabitRangeStep_filter (hs : List Habit) (acc : HabitRange) :
    (hs.filter (fun h => knownColor h.Color)).foldl createHabitRangeStep acc
      = hs.foldl createHabitRangeStep acc := by
  induction hs generalizing acc with
  | nil => rfl
  | cons h t ih =>
    by_cases hk : knownColor h.Color = true
    · simp [List.filter_cons, hk, ih]
    · have hk' : knownColor h.Color = false := by simpa using hk
      simp [List.filter_cons, hk', ih, createHabitRangeStep_unknown acc h hk']

theorem createHabitRange_sum_eq_countP (hs : List Habit) :
    (createHabitRange hs).sum = ((hs.countP (fun h => knownColor h.Color) : Nat) : Int) := by
  unfold createHabitRange
  rw [foldl_createHabitRangeStep_sum]
  simp [HabitRange.sum]

/-- C1: the five buckets returned by `createHabitRange` sum to at most the number of
records, the sum equals the number of records exactly when every record carries one of the
five known colour tags, and records with any other colour add to no bucket (dropping them
from the input leaves the result unchanged). -/
theorem createHabitRange_sum_le_length (allHabits : List Habit) :
    (createHabitRange allHabits).Red + (createHabitRange allHabits).Orange
        + (createHabitRange allHabits).Yellow + (createHabitRange allHabits).Green
        + (createHabitRange allHabits).Blue ≤ (allHabits.length : Int)
    ∧ ((createHabitRange allHabits).Red + (createHabitRange allHabits).Orange
        + (createHabitRange allHabits).Yellow + (createHabitRange allHabits).Green
        + (createHabitRange allHabits).Blue = (allHabits.length : Int)
      ↔ ∀ h ∈ allHabits, h.Color = COLOR_RED ∨ h.Color = COLOR_ORANGE
          ∨ h.Color = COLOR_YELLOW ∨ h.Color = COLOR_GREEN ∨ h.Color = COLOR_BLUE)
    ∧ createHabitRange (allHabits.filter (fun h => decide (h.Color = COLOR_RED
          ∨ h.Color = COLOR_ORANGE ∨ h.Color = COLOR_YELLOW ∨ h.Color = COLOR_GREEN
          ∨ h.Color = COLOR_BLUE))) = createHabitRange allHabits := by
  have hsum := createHabitRange_sum_eq_countP allHabits
  unfold HabitRange.sum at hsum
  have hknown : ∀ h : Habit, knownColor h.Color = true ↔
      (h.Color = COLOR_RED ∨ h.Color = COLOR_ORANGE ∨ h.Color = COLOR_YELLOW
        ∨ h.Color = COLOR_GREEN ∨ h.Color = COLOR_BLUE) := by
    intro h
    simp [knownColor, or_assoc]
  refine ⟨?_, ?_, ?_⟩
  · rw [hsum]
    exact_mod_cast List.countP_le_length _
  · rw [hsum]
    constructor
    · intro heq h hmem
      have heq' : allHabits.countP (fun h => knownColor h.Color) = allHabits.length := by
        exact_mod_cast heq
      exact (hknown h).1 (List.countP_eq_length.1 heq' h hmem)
    · intro hall
      have : allHabits.countP (fun h => knownColor h.Color) = allHabits.length :=
        List.countP_eq_length.2 (fun h hmem => (hknown h).2 (hall h hmem))
      exact_mod_cast this
  · have hfun : (fun h : Habit => decide (h.Color = COLOR_RED
          ∨ h.Color = COLOR_ORANGE ∨ h.Color = COLOR_YELLOW ∨ h.Color = COLOR_GREEN
          ∨ h.Color = COLOR_BLUE)) = (fun h => knownColor h.Color) := by
      funext h
      simp [knownColor, Bool.or_assoc]
    rw [hfun]
    exact foldl_createHabitRangeStep_filter allHabits _

theorem findWorstHabitStep_eq : findWorstHabitStep = keepSmaller (fun h => h.Score) := by
  funext c h
  rfl

theorem findBestHabitStep_eq : findBestHabitStep = keepSmaller (fun h => -h.Score) := by
  funext c h
  unfold findBestHabitStep keepSmaller
  by_cases hlt : h.Score > c.Score
  · have : -h.Score < -c.Score := by omega
    simp [hlt, this]
  · have : ¬ (-h.Score < -c.Score) := by omega
    simp [hlt, this]

/-- What the loop computes from a candidate `c`: either no record beats `c`, or the result is
the first record realising the strict minimum. -/
theorem foldl_keepSmaller (key : Habit → Int) (l : List Habit) (c : Habit) :
    (l.foldl (keepSmaller key) c = c ∧ ∀ h ∈ l, key c ≤ key h)
    ∨ ∃ j, ∃ hj : j < l.length, l.foldl (keepSmaller key) c = l[j] ∧ key l[j] < key c
        ∧ (∀ h ∈ l, key l[j] ≤ key h)
        ∧ ∀ k, ∀ hk : k < l.length, k < j → key l[j] < key l[k] := by
  induction l generalizing c with
  | nil => left; simp
  | cons x t ih =>
    rw [List.foldl_cons]
    by_cases hx : key x < key c
    · have hstep : keepSmaller key c x = x := by simp [keepSmaller, hx]
      rw [hstep]
      rcases ih x with ⟨hr, hall⟩ | ⟨j, hj, hr, hlt, hall, hfirst⟩
      · right
        refine ⟨0, by simp, by simpa using hr, by simpa using hx, ?_, ?_⟩
        · intro h hmem
          rcases List.mem_cons.1 hmem with rfl | hmem
          · simp
          · simpa using hall h hmem
        · intro k hk hk0
          omega
      · right
        refine ⟨j + 1, by simpa using hj, by simpa using hr, ?_, ?_, ?_⟩
        · simp only [List.getElem_cons_succ]
          omega
        · intro h hmem
          simp only [List.getElem_cons_succ]
          rcases List.mem_cons.1 hmem with rfl | hmem
          · omega
          · exact hall h hmem
        · intro k hk hkj
          simp only [List.getElem_cons_succ]
          cases k with
          | zero => simpa using hlt
          | succ k =>
            simp only [List.getElem_cons_succ]
            exact hfirst k (by simpa using hk) (by omega)
    · have hstep : keepSmaller key c x = c := by simp [keepSmaller, hx]
      rw [hstep]
      rcases ih c with ⟨hr, hall⟩ | ⟨j, hj, hr, hlt, hall, hfirst⟩
      · left
        refine ⟨hr, ?_⟩
        intro h hmem
        rcases List.mem_cons.1 hmem with rfl | hmem
        · omega
        · exact hall h hmem
      · right
        refine ⟨j + 1, by simpa using hj, by simpa using hr, by simpa using hlt, ?_, ?_⟩
        · intro h hmem
          simp only [List.getElem_cons_succ]
          rcases List.mem_cons.1 hmem with rfl | hmem
          · omega
          · exact hall h hmem
        · intro k hk hkj
          simp only [List.getElem_cons_succ]
          cases k with
          | zero =>
            simp only [List.getElem_cons_zero]
            omega
          | succ k =>
            simp only [List.getElem_cons_succ]
            exact hfirst k (by simpa using hk) (by omega)

/-- Started from the first record, the loop ends on the record at the smallest index whose
key is minimal. -/
theorem foldl_keepSmaller_first (key : Habit → Int) (first : Habit) (rest : List Habit) :
    ∃ i, ∃ hi : i < (first :: rest).length,
      (∀ h ∈ first :: rest, key (first :: rest)[i] ≤ key h)
      ∧ (∀ k, ∀ hk : k < (first :: rest).length,
          (∀ h ∈ first :: rest, key (first :: rest)[k] ≤ key h) → i ≤ k)
      ∧ (first :: rest).foldl (keepSmaller key) first = (first :: rest)[i] := by
  rcases foldl_keepSmaller key (first :: rest) first with ⟨hr, hall⟩ | ⟨j, hj, hr, hlt, hall, hfirst⟩
  · exact ⟨0, by simp, by simpa using hall, fun k _ _ => Nat.zero_le k, by simpa using hr⟩
  · refine ⟨j, hj, hall, ?_, hr⟩
    intro k hk hmin
    by_contra hlt'
    have h1 := hfirst k hk (by omega)
    have h2 := hmin _ (List.getElem_mem hj)
    omega

/-- C2: on a non-empty sequence `findWorstHabit` returns the `(UserID, Title)` of the record
at the smallest index whose score is less than or equal to every record's score. -/
theorem findWorstHabit_earliest_minimum (allHabits : List Habit) (hne : allHabits ≠ []) :
    ∃ i, ∃ hi : i < allHabits.length,
      (∀ h ∈ allHabits, allHabits[i].Score ≤ h.Score)
      ∧ (∀ k, ∀ hk : k < allHabits.length,
          (∀ h ∈ allHabits, allHabits[k].Score ≤ h.Score) → i ≤ k)
      ∧ findWorstHabit allHabits = some ⟨allHabits[i].UserID, allHabits[i].Title⟩ := by
  cases allHabits with
  | nil => exact absurd rfl hne
  | cons first rest =>
    obtain ⟨i, hi, hmin, hfirst, hr⟩ :=
      foldl_keepSmaller_first (fun h => h.Score) first rest
    refine ⟨i, hi, hmin, hfirst, ?_⟩
    simp only [findWorstHabit, findWorstHabitStep_eq, hr]

theorem findWorstHabit_earliest_minimum_witness :
    scenarioHabits ≠ []
    ∧ ∃ i, ∃ hi : i < scenarioHabits.length,
      (∀ h ∈ scenarioHabits, scenarioHabits[i].Score ≤ h.Score)
      ∧ (∀ k, ∀ hk : k < scenarioHabits.length,
          (∀ h ∈ scenarioHabits, scenarioHabits[k].Score ≤ h.Score) → i ≤ k)
      ∧ findWorstHabit scenarioHabits
          = some ⟨scenarioHabits[i].UserID, scenarioHabits[i].Title⟩ :=
  ⟨by decide, findWorstHabit_earliest_minimum scenarioHabits (by decide)⟩

/-- C3: on a non-empty sequence `findBestHabit` returns the `(UserID, Title)` of the record
at the smallest index whose score is greater than or equal to every record's score. -/
theorem findBestHabit_earliest_maximum (allHabits : List Habit) (hne : allHabits ≠ []) :
    ∃ i, ∃ hi : i < allHabits.length,
      (∀ h ∈ allHabits, h.Score ≤ allHabits[i].Score)
      ∧ (∀ k, ∀ hk : k < allHabits.length,
          (∀ h ∈ allHabits, h.Score ≤ allHabits[k].Score) → i ≤ k)
      ∧ findBestHabit allHabits = some ⟨allHabits[i].UserID, allHabits[i].Title⟩ := by
  cases allHabits with
  | nil => exact absurd rfl hne
  | cons first rest =>
    obtain ⟨i, hi, hmin, hfirst, hr⟩ :=
      foldl_keepSmaller_first (fun h => -h.Score) first rest
    refine ⟨i, hi, ?_, ?_, ?_⟩
    · intro h hmem
      have := hmin h hmem
      omega
    · intro k hk hmax
      apply hfirst k hk
      intro h hmem
      have := hmax h hmem
      omega
    · simp only [findBestHabit, findBestHabitStep_eq, hr]

theorem findBestHabit_earliest_maximum_witness :
    scenarioHabits ≠ []
    ∧ ∃ i, ∃ hi : i < scenarioHabits.length,
      (∀ h ∈ scenarioHabits, h.Score ≤ scenarioHabits[i].Score)
      ∧ (∀ k, ∀ hk : k < scenarioHabits.length,
          (∀ h ∈ scenarioHabits, h.Score ≤ scenarioHabits[k].Score) → i ≤ k)
      ∧ findBestHabit scenarioHabits
          = some ⟨scenarioHabits[i].UserID, scenarioHabits[i].Title⟩ :=
  ⟨by decide, findBestHabit_earliest_maximum scenarioHabits (by decide)⟩

/-- The habits scenario of the specification, evaluated. -/
theorem scenarioHabits_report :
    createHabitRange scenarioHabits = ⟨1, 0, 0, 0, 1⟩
    ∧ findWorstHabit scenarioHabits = some ⟨"u1", "t1"⟩
    ∧ findBestHabit scenarioHabits = some ⟨"u2", "t2"⟩ := by
  refine ⟨?_, ?_, ?_⟩ <;> decide

end habits

/-! ## Properties of the tasks aggregator -/

namespace tasks

theorem populateCompletedStep_eq (acc : CompletedDescription) (t : Task) :
    populateCompletedStep acc t
      = ⟨acc.Total + (if isCompleted t then 1 else 0), acc.OnTime + (if isOnTime t then 1 else 0),
          acc.Late + (if isLate t then 1 else 0)⟩ := by
  unfold populateCompletedStep isCompleted isOnTime isLate
  cases hc : t.CompletedDate with
  | none => simp
  | some c =>
    by_cases hle : c ≤ t.DueDate
    · have hgt : ¬ (c > t.DueDate) := by omega
      simp [hle, hgt]
    · have hgt : c > t.DueDate := by omega
      simp [hle, hgt]

theorem foldl_populateCompletedStep (l : List Task) (acc : CompletedDescription) :
    l.foldl populateCompletedStep acc
      = ⟨acc.Total + ((l.countP isCompleted : Nat) : Int),
          acc.OnTime + ((l.countP isOnTime : Nat) : Int),
          acc.Late + ((l.countP isLate : Nat) : Int)⟩ := by
  induction l generalizing acc with
  | nil => simp
  | cons t l ih =>
    rw [List.foldl_cons, ih, populateCompletedStep_eq]
    simp only [List.countP_cons, Nat.cast_add, CompletedDescription.mk.injEq]
    refine ⟨?_, ?_, ?_⟩
    · split_ifs <;> push_cast <;> ring
    · split_ifs <;> push_cast <;> ring
    · split_ifs <;> push_cast <;> ring

theorem populateCompleted_eq_countP (l : List Task) :
    populateCompleted l
      = ⟨((l.countP isCompleted : Nat) : Int), ((l.countP isOnTime : Nat) : Int),
          ((l.countP isLate : Nat) : Int)⟩ := by
  unfold populateCompleted
  rw [foldl_populateCompletedStep]
  simp

theorem countP_isCompleted_split (l : List Task) :
    l.countP isCompleted = l.countP isOnTime + l.countP isLate := by
  induction l with
  | nil => rfl
  | cons t l ih =>
    simp only [List.countP_cons, ih]
    have : (if isCompleted t = true then 1 else 0)
        = (if isOnTime t = true then 1 else 0) + (if isLate t = true then 1 else 0) := by
      unfold isCompleted isOnTime isLate
      cases hc : t.CompletedDate with
      | none => simp
      | some c =>
        by_cases hle : c ≤ t.DueDate
        · have hgt : ¬ (c > t.DueDate) := by omega
          simp [hle, hgt]
        · have hgt : c > t.DueDate := by omega
          simp [hle, hgt]
    omega

/-- C4: for every sequence of task records, the empty one included, the result of
`populateCompleted` satisfies `Total = OnTime + Late`. -/
theorem populateCompleted_total_eq (allTasks : List Task) :
    (populateCompleted allTasks).Total
      = (populateCompleted allTasks).OnTime + (populateCompleted allTasks).Late := by
  rw [populateCompleted_eq_countP]
  simp only
  exact_mod_cast countP_isCompleted_split allTasks

/-- C5: `populateCompleted` returns as `Total` the number of records with a `CompletedDate`,
as `OnTime` the number of records with `CompletedDate ≤ DueDate` (equality included), as
`Late` the number of records with `CompletedDate > DueDate`; records without a
`CompletedDate` contribute to none of the three, and a task completed exactly at its due time
counts as on time. -/
theorem populateCompleted_counts (allTasks : List Task) :
    (populateCompleted allTasks).Total
        = ((allTasks.countP (fun t => t.CompletedDate.isSome) : Nat) : Int)
    ∧ (populateCompleted allTasks).OnTime
        = ((allTasks.countP (fun t => match t.CompletedDate with
            | some completedDate => decide (completedDate ≤ t.DueDate)
            | none => false) : Nat) : Int)
    ∧ (populateCompleted allTasks).Late
        = ((allTasks.countP (fun t => match t.CompletedDate with
            | some completedDate => decide (completedDate > t.DueDate)
            | none => false) : Nat) : Int)
    ∧ populateCompleted (allTasks.filter (fun t => t.CompletedDate.isSome))
        = populateCompleted allTasks
    ∧ populateCompleted (allTasks.filter (fun t => t.CompletedDate.isNone)) = ⟨0, 0, 0⟩
    ∧ ∀ T : Int, populateCompleted [doneTask T T] = ⟨1, 1, 0⟩ := by
  have hC : (fun t : Task => t.CompletedDate.isSome) = isCompleted := rfl
  have hO : (fun t : Task => match t.CompletedDate with
            | some completedDate => decide (completedDate ≤ t.DueDate)
            | none => false) = isOnTime := rfl
  have hL : (fun t : Task => match t.CompletedDate with
            | some completedDate => decide (completedDate > t.DueDate)
            | none => false) = isLate := rfl
  rw [hO, hL, hC]
  refine ⟨by rw [populateCompleted_eq_countP], by rw [populateCompleted_eq_countP],
    by rw [populateCompleted_eq_countP], ?_, ?_, ?_⟩
  · rw [populateCompleted_eq_countP, populateCompleted_eq_countP]
    simp only [List.countP_filter, CompletedDescription.mk.injEq, Nat.cast_inj]
    refine ⟨?_, ?_, ?_⟩ <;>
    · apply List.countP_congr
      intro t _
      cases hc : t.CompletedDate <;> simp [isCompleted, isOnTime, isLate, hc]
  · rw [populateCompleted_eq_countP]
    simp only [List.countP_filter, CompletedDescription.mk.injEq, Nat.cast_eq_zero,
      List.countP_eq_zero]
    refine ⟨?_, ?_, ?_⟩ <;>
    · intro t _
      cases hc : t.CompletedDate <;> simp [isCompleted, isOnTime, isLate, hc]
  · intro T
    simp [populateCompleted, populateCompletedStep, doneTask]

theorem foldl_countDelayedStep (now : Int) (l : List Task) (acc : Int) :
    l.foldl (countDelayedStep now) acc
      = acc + ((l.countP (fun t => decide (t.CompletedDate = none ∧ t.DueDate < now)) : Nat)
          : Int) := by
  induction l generalizing acc with
  | nil => simp
  | cons t l ih =>
    rw [List.foldl_cons, ih, List.countP_cons]
    unfold countDelayedStep
    by_cases h : t.CompletedDate = none ∧ t.DueDate < now
    · simp only [h, and_self, if_true, decide_True, Nat.cast_add, Nat.cast_one]
      ring
    · simp [h]

/-- C6: for a fixed current time `now`, `countDelayed` returns exactly the number of records
that have no `CompletedDate` and whose `DueDate` is strictly earlier than `now`; records with
a `CompletedDate`, or with `DueDate ≥ now`, are never counted. -/
theorem countDelayed_eq_count (now : Int) (allTasks : List Task) :
    countDelayed now allTasks
        = ((allTasks.countP (fun t => decide (t.CompletedDate = none ∧ t.DueDate < now)) : Nat)
            : Int)
    ∧ countDelayed now
        (allTasks.filter (fun t => t.CompletedDate.isSome || decide (now ≤ t.DueDate))) = 0 := by
  unfold countDelayed
  rw [foldl_countDelayedStep, foldl_countDelayedStep]
  refine ⟨by simp, ?_⟩
  simp only [zero_add, Nat.cast_eq_zero, List.countP_eq_zero, List.mem_filter]
  rintro t ⟨_, ht⟩
  cases hc : t.CompletedDate with
  | none =>
    simp only [hc, Option.isSome_none, Bool.false_or, decide_eq_true_eq] at ht
    simp only [true_and, decide_eq_true_eq]
    omega
  | some c => simp

theorem foldl_populateAvailableStep (loc : time.Location) (now : Int) (l : List Task)
    (acc : AvailableDescription) :
    l.foldl (populateAvailableStep loc now) acc
      = ⟨acc.Total + ((l.countP (fun t => decide (t.CompletedDate = none)) : Nat) : Int),
          acc.DueToday + ((l.countP (fun t => decide (t.CompletedDate = none
            ∧ time.YearDay loc t.DueDate = time.YearDay loc now)) : Nat) : Int)⟩ := by
  induction l generalizing acc with
  | nil => simp
  | cons t l ih =>
    rw [List.foldl_cons, ih, List.countP_cons, List.countP_cons]
    unfold populateAvailableStep
    by_cases hc : t.CompletedDate = none
    · by_cases hd : time.YearDay loc t.DueDate = time.YearDay loc now
      · simp only [hc, hd, and_self, if_true, decide_True, Nat.cast_add, Nat.cast_one,
          AvailableDescription.mk.injEq]
        constructor <;> ring
      · simp only [hc, hd, and_false, if_true, if_false, decide_True, decide_False,
          Nat.cast_add, Nat.cast_one, AvailableDescription.mk.injEq, true_and]
        constructor
        · ring
        · simp
    · simp [hc]

/-- C7: for a fixed current time `now`, `populateAvailable` returns as `Total` the number of
records with no `CompletedDate` and as `DueToday` the number of those whose `DueDate` has the
same day of the year as `now`, so `DueToday ≤ Total`; the year is not compared: read in UTC
at noon of 1 March 2018, a task due at noon of 1 March 2017 is counted as due today.  The day
of the year is the one Go computes, with its unsigned 64-bit date arithmetic: at noon of
5 December 2019 a task due at the least `int64` second, whose date wraps to day 339 of the
year 292277026596, is counted as due today. -/
theorem populateAvailable_counts (loc : time.Location) (now : Int) (allTasks : List Task) :
    (populateAvailable loc now allTasks).Total
        = ((allTasks.countP (fun t => decide (t.CompletedDate = none)) : Nat) : Int)
    ∧ (populateAvailable loc now allTasks).DueToday
        = ((allTasks.countP (fun t => decide (t.CompletedDate = none
            ∧ time.YearDay loc t.DueDate = time.YearDay loc now)) : Nat) : Int)
    ∧ (populateAvailable loc now allTasks).DueToday ≤ (populateAvailable loc now allTasks).Total
    ∧ time.Year time.UTC 1488369600 = 2017
    ∧ time.Year time.UTC 1519905600 = 2018
    ∧ populateAvailable time.UTC 1519905600 [openTask 1488369600] = ⟨1, 1⟩
    ∧ time.Year time.UTC (-9223372036854775808) = 292277026596
    ∧ time.YearDay time.UTC (-9223372036854775808) = 339
    ∧ time.YearDay time.UTC 1575547200 = 339
    ∧ populateAvailable time.UTC 1575547200 [openTask (-9223372036854775808)] = ⟨1, 1⟩ := by
  unfold populateAvailable
  rw [foldl_populateAvailableStep]
  refine ⟨by simp, by simp, ?_, by decide, by decide, by decide, by decide, by decide,
    by decide, by decide⟩
  simp only [zero_add, Nat.cast_le]
  apply List.countP_mono_left
  intro t _ ht
  simp only [decide_eq_true_eq] at ht ⊢
  exact ht.1

/-- The tasks scenario of the specification, evaluated at a sample current time read in
UTC. -/
theorem scenarioTasks_report :
    countDelayed 1519905600 (scenarioTasks 1519905600) = 1
    ∧ populateCompleted (scenarioTasks 1519905600) = ⟨2, 1, 1⟩
    ∧ (populateAvailable time.UTC 1519905600 (scenarioTasks 1519905600)).Total = 1 := by
  refine ⟨?_, ?_, ?_⟩ <;> decide

end tasks

/-! ## Properties of the report stores -/

namespace habits

/-- The message of the not-found error starts `ms`, that of the decode error `my`. -/
theorem notFound_ne_decode (a b : String) :
    sql.GoError.Errorf ("msql: could not find report with id " ++ a)
      ≠ sql.GoError.Errorf ("mysql: could not get habits report: " ++ b) := by
  intro h
  have h1 := sql.GoError.Errorf.inj h
  have h2 := congrArg String.data h1
  simp only [String.data_append] at h2
  have h3 := congrArg (fun l => l.get? 1) h2
  simp at h3

theorem execAffectingOneRow_error_iff {σ Args : Type}
    (stmt : Args → σ → Except sql.GoError sql.Result × σ) (args : Args) (s s1 : σ)
    (result : sql.Result) (n : Int) (hexec : stmt args s = (.ok result, s1))
    (hrows : result.RowsAffected = .ok n) :
    (∃ err, (execAffectingOneRow stmt args s).1 = .error err) ↔ n ≠ 1 := by
  unfold execAffectingOneRow
  simp only [hexec, hrows]
  by_cases hn : n = 1
  · simp [hn]
  · simp [hn]

theorem execAffectingOneRow_ok {σ Args : Type}
    (stmt : Args → σ → Except sql.GoError sql.Result × σ) (args : Args) (s : σ)
    (result : sql.Result) (h : (execAffectingOneRow stmt args s).1 = .ok result) :
    stmt args s = (.ok result, (execAffectingOneRow stmt args s).2)
      ∧ result.RowsAffected = .ok 1 := by
  unfold execAffectingOneRow at h ⊢
  rcases hexec : stmt args s with ⟨out, s1⟩
  rw [hexec] at h
  cases out with
  | error e => simp at h
  | ok r =>
    simp only at h ⊢
    cases hrows : r.RowsAffected with
    | error e => simp [hrows] at h
    | ok n =>
      simp only [hrows] at h ⊢
      by_cases hn : n = 1
      · simp only [hn, ne_eq, not_true_eq_false, if_false] at h ⊢
        have hr : r = result := by simpa using h
        subst hr
        exact ⟨rfl, by rw [hrows, hn]⟩
      · simp [hn] at h

theorem execAffectingOneRow_of_one_row {σ Args : Type}
    (stmt : Args → σ → Except sql.GoError sql.Result × σ) (args : Args) (s s1 : σ)
    (result : sql.Result) (hexec : stmt args s = (.ok result, s1))
    (hrows : result.RowsAffected = .ok 1) :
    execAffectingOneRow stmt args s = (.ok result, s1) := by
  simp [execAffectingOneRow, hexec, hrows]

theorem AddHabitsReport_of_one_row {σ : Type} (db : mysqlDB σ) (report : HabitsReport) (s s1 : σ)
    (result : sql.Result) (lastInsertID : Int)
    (hexec : db.insert (insertArgs report) s = (.ok result, s1))
    (hrows : result.RowsAffected = .ok 1) (hid : result.LastInsertId = .ok lastInsertID) :
    AddHabitsReport db report s = ((lastInsertID, none), s1) := by
  simp [AddHabitsReport, execAffectingOneRow, hexec, hrows, hid]

theorem AddHabitsReport_of_id_error {σ : Type} (db : mysqlDB σ) (report : HabitsReport) (s s1 : σ)
    (result : sql.Result) (e : sql.GoError)
    (hexec : db.insert (insertArgs report) s = (.ok result, s1))
    (hrows : result.RowsAffected = .ok 1) (hid : result.LastInsertId = .error e) :
    AddHabitsReport db report s
      = ((0, some (.Errorf ("mysql: could not get last insert ID: " ++ e.Error))), s1) := by
  simp [AddHabitsReport, execAffectingOneRow, hexec, hrows, hid]

theorem AddHabitsReport_of_row_count {σ : Type} (db : mysqlDB σ) (report : HabitsReport) (s s1 : σ)
    (result : sql.Result) (n : Int)
    (hexec : db.insert (insertArgs report) s = (.ok result, s1))
    (hrows : result.RowsAffected = .ok n) (hn : n ≠ 1) :
    AddHabitsReport db report s
      = ((0, some (.Errorf ("mysql: expected 1 row affected, got " ++ toString n))), s1) := by
  simp [AddHabitsReport, execAffectingOneRow, hexec, hrows, hn]

theorem AddHabitsReport_of_rows_error {σ : Type} (db : mysqlDB σ) (report : HabitsReport) (s s1 : σ)
    (result : sql.Result) (e : sql.GoError)
    (hexec : db.insert (insertArgs report) s = (.ok result, s1))
    (hrows : result.RowsAffected = .error e) :
    AddHabitsReport db report s
      = ((0, some (.Errorf ("mysql: could not get rows affected: " ++ e.Error))), s1) := by
  simp [AddHabitsReport, execAffectingOneRow, hexec, hrows]

theorem AddHabitsReport_of_exec_error {σ : Type} (db : mysqlDB σ) (report : HabitsReport) (s s1 : σ)
    (e : sql.GoError) (hexec : db.insert (insertArgs report) s = (.error e, s1)) :
    AddHabitsReport db report s
      = ((0, some (.Errorf ("mysql: could not execute statement: " ++ e.Error))), s1) := by
  simp [AddHabitsReport, execAffectingOneRow, hexec]

theorem AddHabitsReport_error {σ : Type} (db : mysqlDB σ) (report : HabitsReport) (s : σ)
    (err : sql.GoError) (h : (AddHabitsReport db report s).1.2 = some err) :
    (AddHabitsReport db report s).1.1 = 0 := by
  unfold AddHabitsReport at h ⊢
  rcases hexec : execAffectingOneRow db.insert (insertArgs report) s with ⟨out, s1⟩
  rw [hexec] at h
  cases out with
  | error e => rfl
  | ok r =>
    simp only at h ⊢
    cases hid : r.LastInsertId with
    | error e => rfl
    | ok n => simp [hid] at h

theorem AddHabitsReport_success {σ : Type} (db : mysqlDB σ) (report : HabitsReport) (s : σ)
    (h : (AddHabitsReport db report s).1.2 = none) :
    ∃ result, db.insert (insertArgs report) s = (.ok result, (AddHabitsReport db report s).2)
      ∧ result.RowsAffected = .ok 1
      ∧ result.LastInsertId = .ok (AddHabitsReport db report s).1.1 := by
  unfold AddHabitsReport at h ⊢
  rcases hexec : execAffectingOneRow db.insert (insertArgs report) s with ⟨out, s1⟩
  rw [hexec] at h
  cases out with
  | error e => simp at h
  | ok r =>
    have hok := execAffectingOneRow_ok db.insert (insertArgs report) s r (by rw [hexec])
    rw [hexec] at hok
    simp only at h ⊢
    cases hid : r.LastInsertId with
    | error e => simp [hid] at h
    | ok n => exact ⟨r, hok.1, hok.2, by rw [hid]⟩

end habits

namespace tasks

/-- The message of the not-found error starts `ms`, that of the decode error `my`. -/
theorem notFound_ne_decode_tasks (a b : String) :
    sql.GoError.Errorf ("msql: could not find report with id " ++ a)
      ≠ sql.GoError.Errorf ("mysql: could not get tasks report: " ++ b) := by
  intro h
  have h1 := sql.GoError.Errorf.inj h
  have h2 := congrArg String.data h1
  simp only [String.data_append] at h2
  have h3 := congrArg (fun l => l.get? 1) h2
  simp at h3

theorem execAffectingOneRow_error_iff_tasks {σ Args : Type}
    (stmt : Args → σ → Except sql.GoError sql.Result × σ) (args : Args) (s s1 : σ)
    (result : sql.Result) (n : Int) (hexec : stmt args s = (.ok result, s1))
    (hrows : result.RowsAffected = .ok n) :
    (∃ err, (execAffectingOneRow stmt args s).1 = .error err) ↔ n ≠ 1 := by
  unfold execAffectingOneRow
  simp only [hexec, hrows]
  by_cases hn : n = 1
  · simp [hn]
  · simp [hn]

theorem execAffectingOneRow_ok_tasks {σ Args : Type}
    (stmt : Args → σ → Except sql.GoError sql.Result × σ) (args : Args) (s : σ)
    (result : sql.Result) (h : (execAffectingOneRow stmt args s).1 = .ok result) :
    stmt args s = (.ok result, (execAffectingOneRow stmt args s).2)
      ∧ result.RowsAffected = .ok 1 := by
  unfold execAffectingOneRow at h ⊢
  rcases hexec : stmt args s with ⟨out, s1⟩
  rw [hexec] at h
  cases out with
  | error e => simp at h
  | ok r =>
    simp only at h ⊢
    cases hrows : r.RowsAffected with
    | error e => simp [hrows] at h
    | ok n =>
      simp only [hrows] at h ⊢
      by_cases hn : n = 1
      · simp only [hn, ne_eq, not_true_eq_false, if_false] at h ⊢
        have hr : r = result := by simpa using h
        subst hr
        exact ⟨rfl, by rw [hrows, hn]⟩
      · simp [hn] at h

theorem execAffectingOneRow_of_one_row_tasks {σ Args : Type}
    (stmt : Args → σ → Except sql.GoError sql.Result × σ) (args : Args) (s s1 : σ)
    (result : sql.Result) (hexec : stmt args s = (.ok result, s1))
    (hrows : result.RowsAffected = .ok 1) :
    execAffectingOneRow stmt args s = (.ok result, s1) := by
  simp [execAffectingOneRow, hexec, hrows]

theorem AddTasksReport_of_one_row {σ : Type} (db : mysqlDB σ) (report : TasksReport) (s s1 : σ)
    (result : sql.Result) (lastInsertID : Int)
    (hexec : db.insert (insertArgs report) s = (.ok result, s1))
    (hrows : result.RowsAffected = .ok 1) (hid : result.LastInsertId = .ok lastInsertID) :
    AddTasksReport db report s = ((lastInsertID, none), s1) := by
  simp [AddTasksReport, execAffectingOneRow, hexec, hrows, hid]

theorem AddTasksReport_of_id_error {σ : Type} (db : mysqlDB σ) (report : TasksReport) (s s1 : σ)
    (result : sql.Result) (e : sql.GoError)
    (hexec : db.insert (insertArgs report) s = (.ok result, s1))
    (hrows : result.RowsAffected = .ok 1) (hid : result.LastInsertId = .error e) :
    AddTasksReport db report s
      = ((0, some (.Errorf ("mysql: could not get last insert ID: " ++ e.Error))), s1) := by
  simp [AddTasksReport, execAffectingOneRow, hexec, hrows, hid]

theorem AddTasksReport_of_row_count {σ : Type} (db : mysqlDB σ) (report : TasksReport) (s s1 : σ)
    (result : sql.Result) (n : Int)
    (hexec : db.insert (insertArgs report) s = (.ok result, s1))
    (hrows : result.RowsAffected = .ok n) (hn : n ≠ 1) :
    AddTasksReport db report s
      = ((0, some (.Errorf ("mysql: expected 1 row affected, got " ++ toString n))), s1) := by
  simp [AddTasksReport, execAffectingOneRow, hexec, hrows, hn]

theorem AddTasksReport_of_rows_error {σ : Type} (db : mysqlDB σ) (report : TasksReport) (s s1 : σ)
    (result : sql.Result) (e : sql.GoError)
    (hexec : db.insert (insertArgs report) s = (.ok result, s1))
    (hrows : result.RowsAffected = .error e) :
    AddTasksReport db report s
      = ((0, some (.Errorf ("mysql: could not get rows affected: " ++ e.Error))), s1) := by
  simp [AddTasksReport, execAffectingOneRow, hexec, hrows]

theorem AddTasksReport_of_exec_error {σ : Type} (db : mysqlDB σ) (report : TasksReport) (s s1 : σ)
    (e : sql.GoError) (hexec : db.insert (insertArgs report) s = (.error e, s1)) :
    AddTasksReport db report s
      = ((0, some (.Errorf ("mysql: could not execute statement: " ++ e.Error))), s1) := by
  simp [AddTasksReport, execAffectingOneRow, hexec]

theorem AddTasksReport_error {σ : Type} (db : mysqlDB σ) (report : TasksReport) (s : σ)
    (err : sql.GoError) (h : (AddTasksReport db report s).1.2 = some err) :
    (AddTasksReport db report s).1.1 = 0 := by
  unfold AddTasksReport at h ⊢
  rcases hexec : execAffectingOneRow db.insert (insertArgs report) s with ⟨out, s1⟩
  rw [hexec] at h
  cases out with
  | error e => rfl
  | ok r =>
    simp only at h ⊢
    cases hid : r.LastInsertId with
    | error e => rfl
    | ok n => simp [hid] at h

theorem AddTasksReport_success {σ : Type} (db : mysqlDB σ) (report : TasksReport) (s : σ)
    (h : (AddTasksReport db report s).1.2 = none) :
    ∃ result, db.insert (insertArgs report) s = (.ok result, (AddTasksReport db report s).2)
      ∧ result.RowsAffected = .ok 1
      ∧ result.LastInsertId = .ok (AddTasksReport db report s).1.1 := by
  unfold AddTasksReport at h ⊢
  rcases hexec : execAffectingOneRow db.insert (insertArgs report) s with ⟨out, s1⟩
  rw [hexec] at h
  cases out with
  | error e => simp at h
  | ok r =>
    have hok := execAffectingOneRow_ok_tasks db.insert (insertArgs report) s r (by rw [hexec])
    rw [hexec] at hok
    simp only at h ⊢
    cases hid : r.LastInsertId with
    | error e => simp [hid] at h
    | ok n => exact ⟨r, hok.1, hok.2, by rw [hid]⟩

end tasks

namespace habits

theorem GetHabitsReport_noRows {σ : Type} (db : mysqlDB σ) (reportId : Int) (s : σ)
    (h : (db.get reportId s).Scan = .error .ErrNoRows) :
    GetHabitsReport db reportId s
      = (none, some (.Errorf ("msql: could not find report with id " ++ toString reportId))) := by
  simp [GetHabitsReport, scanHabitsReport, h]

theorem GetHabitsReport_decode {σ : Type} (db : mysqlDB σ) (reportId : Int) (s : σ)
    (e : sql.GoError) (h : (db.get reportId s).Scan = .error e) (he : e ≠ .ErrNoRows) :
    GetHabitsReport db reportId s
      = (none, some (.Errorf ("mysql: could not get habits report: " ++ e.Error))) := by
  simp [GetHabitsReport, scanHabitsReport, h, he]

theorem GetHabitsReport_some {σ : Type} (db : mysqlDB σ) (reportId : Int) (s : σ)
    (report : HabitsReport) (h : (GetHabitsReport db reportId s).1 = some report) :
    (GetHabitsReport db reportId s).2 = none
      ∧ (∃ v, (db.get reportId s).Scan = .ok v)
      ∧ scanHabitsReport (db.get reportId s) = (some report, none) := by
  unfold GetHabitsReport scanHabitsReport at h ⊢
  cases hscan : (db.get reportId s).Scan with
  | error e =>
    rw [hscan] at h
    by_cases he : e = .ErrNoRows
    · simp [he] at h
    · simp [he] at h
  | ok v =>
    rw [hscan] at h
    simp only [reduceCtorEq, if_false] at h ⊢
    exact ⟨trivial, ⟨v, rfl⟩, by rw [h]⟩

theorem queryRow_noRows (t : Table) (reportId : Int)
    (h : ∀ r ∈ t.rows, (r.report_id : Int) ≠ reportId) :
    (Table.queryRow reportId t).Scan = .error .ErrNoRows := by
  have hnone : t.rows.find? (fun r => decide ((r.report_id : Int) = reportId)) = none := by
    rw [List.find?_eq_none]
    intro r hr
    simpa using h r hr
  simp [Table.queryRow, hnone]

theorem queryRow_ok (t : Table) (reportId : Int) (v : ScannedRow)
    (h : (Table.queryRow reportId t).Scan = .ok v) :
    ∃ r ∈ t.rows, (r.report_id : Int) = reportId ∧ r.Scan = .ok v := by
  unfold Table.queryRow at h
  cases hfind : t.rows.find? (fun r => decide ((r.report_id : Int) = reportId)) with
  | none => simp [hfind] at h
  | some r =>
    rw [hfind] at h
    refine ⟨r, List.mem_of_find?_eq_some hfind, ?_, h⟩
    simpa using List.find?_some hfind

theorem Row_Scan_ne_noRows (r : Row) : r.Scan ≠ .error .ErrNoRows := by
  rcases r with ⟨report_id, red, orange, yellow, green, blue, worst_name, worst_title, best_name, best_title⟩
  cases red <;> cases orange <;> cases yellow <;> cases green <;> cases blue <;>
    simp [Row.Scan, sql.scanInt, bind, Except.bind, pure, Except.pure]

theorem GetHabitsReport_tableDB_notFound_iff (t : Table) (reportId : Int) :
    GetHabitsReport tableDB reportId t
        = (none, some (.Errorf ("msql: could not find report with id " ++ toString reportId)))
      ↔ ∀ r ∈ t.rows, (r.report_id : Int) ≠ reportId := by
  constructor
  · intro hget r hr hid
    have hsome : (t.rows.find? (fun r => decide ((r.report_id : Int) = reportId))).isSome := by
      rw [List.find?_isSome]
      exact ⟨r, hr, by simpa using hid⟩
    obtain ⟨r0, hr0⟩ := Option.isSome_iff_exists.1 hsome
    have hq : (tableDB.get reportId t).Scan = r0.Scan := by
      simp [tableDB, Table.queryRow, hr0]
    cases hscan : r0.Scan with
    | error e =>
      have he : e ≠ .ErrNoRows := fun h => Row_Scan_ne_noRows r0 (by rw [hscan, h])
      rw [GetHabitsReport_decode tableDB reportId t e (by rw [hq, hscan]) he] at hget
      have h2 : sql.GoError.Errorf ("msql: could not find report with id " ++ toString reportId)
          = sql.GoError.Errorf ("mysql: could not get habits report: " ++ e.Error) := by
        simpa using hget.symm
      exact notFound_ne_decode _ _ h2
    | ok v =>
      have : (GetHabitsReport tableDB reportId t).2 = none := by
        simp [GetHabitsReport, scanHabitsReport, hq, hscan]
      rw [hget] at this
      simp at this
  · intro h
    exact GetHabitsReport_noRows tableDB reportId t (queryRow_noRows t reportId h)

end habits

namespace tasks

theorem GetTasksReport_noRows_tasks {σ : Type} (db : mysqlDB σ) (reportId : Int) (s : σ)
    (h : (db.get reportId s).Scan = .error .ErrNoRows) :
    GetTasksReport db reportId s
      = (none, some (.Errorf ("msql: could not find report with id " ++ toString reportId))) := by
  simp [GetTasksReport, scanTasksReport, h]

theorem GetTasksReport_decode_tasks {σ : Type} (db : mysqlDB σ) (reportId : Int) (s : σ)
    (e : sql.GoError) (h : (db.get reportId s).Scan = .error e) (he : e ≠ .ErrNoRows) :
    GetTasksReport db reportId s
      = (none, some (.Errorf ("mysql: could not get tasks report: " ++ e.Error))) := by
  simp [GetTasksReport, scanTasksReport, h, he]

theorem GetTasksReport_some_tasks {σ : Type} (db : mysqlDB σ) (reportId : Int) (s : σ)
    (report : TasksReport) (h : (GetTasksReport db reportId s).1 = some report) :
    (GetTasksReport db reportId s).2 = none
      ∧ (∃ v, (db.get reportId s).Scan = .ok v)
      ∧ scanTasksReport (db.get reportId s) = (some report, none) := by
  unfold GetTasksReport scanTasksReport at h ⊢
  cases hscan : (db.get reportId s).Scan with
  | error e =>
    rw [hscan] at h
    by_cases he : e = .ErrNoRows
    · simp [he] at h
    · simp [he] at h
  | ok v =>
    rw [hscan] at h
    simp only [reduceCtorEq, if_false] at h ⊢
    exact ⟨trivial, ⟨v, rfl⟩, by rw [h]⟩

theorem queryRow_noRows_tasks (t : Table) (reportId : Int)
    (h : ∀ r ∈ t.rows, (r.report_id : Int) ≠ reportId) :
    (Table.queryRow reportId t).Scan = .error .ErrNoRows := by
  have hnone : t.rows.find? (fun r => decide ((r.report_id : Int) = reportId)) = none := by
    rw [List.find?_eq_none]
    intro r hr
    simpa using h r hr
  simp [Table.queryRow, hnone]

theorem queryRow_ok_tasks (t : Table) (reportId : Int) (v : ScannedRow)
    (h : (Table.queryRow reportId t).Scan = .ok v) :
    ∃ r ∈ t.rows, (r.report_id : Int) = reportId ∧ r.Scan = .ok v := by
  unfold Table.queryRow at h
  cases hfind : t.rows.find? (fun r => decide ((r.report_id : Int) = reportId)) with
  | none => simp [hfind] at h
  | some r =>
    rw [hfind] at h
    refine ⟨r, List.mem_of_find?_eq_some hfind, ?_, h⟩
    simpa using List.find?_some hfind

theorem Row_Scan_ne_noRows_tasks (r : Row) : r.Scan ≠ .error .ErrNoRows := by
  rcases r with ⟨report_id, ct, co, cl, dt, av, ad⟩
  cases ct <;> cases co <;> cases cl <;> cases dt <;> cases av <;> cases ad <;>
    simp [Row.Scan, sql.scanInt, bind, Except.bind, pure, Except.pure]

theorem GetTasksReport_tableDB_notFound_iff (t : Table) (reportId : Int) :
    GetTasksReport tableDB reportId t
        = (none, some (.Errorf ("msql: could not find report with id " ++ toString reportId)))
      ↔ ∀ r ∈ t.rows, (r.report_id : Int) ≠ reportId := by
  constructor
  · intro hget r hr hid
    have hsome : (t.rows.find? (fun r => decide ((r.report_id : Int) = reportId))).isSome := by
      rw [List.find?_isSome]
      exact ⟨r, hr, by simpa using hid⟩
    obtain ⟨r0, hr0⟩ := Option.isSome_iff_exists.1 hsome
    have hq : (tableDB.get reportId t).Scan = r0.Scan := by
      simp [tableDB, Table.queryRow, hr0]
    cases hscan : r0.Scan with
    | error e =>
      have he : e ≠ .ErrNoRows := fun h => Row_Scan_ne_noRows_tasks r0 (by rw [hscan, h])
      rw [GetTasksReport_decode_tasks tableDB reportId t e (by rw [hq, hscan]) he] at hget
      have h2 : sql.GoError.Errorf ("msql: could not find report with id " ++ toString reportId)
          = sql.GoError.Errorf ("mysql: could not get tasks report: " ++ e.Error) := by
        simpa using hget.symm
      exact notFound_ne_decode_tasks _ _ h2
    | ok v =>
      have : (GetTasksReport tableDB reportId t).2 = none := by
        simp [GetTasksReport, scanTasksReport, hq, hscan]
      rw [hget] at this
      simp at this
  · intro h
    exact GetTasksReport_noRows_tasks tableDB reportId t (queryRow_noRows_tasks t reportId h)

end tasks

namespace sql

theorem intUnsignedColumn_of_fits (strict : Bool) (v : Int) (h : fitsIntUnsigned v = true) :
    intUnsignedColumn strict v = .ok (some v.toNat) := by
  unfold fitsIntUnsigned at h
  simp only [decide_eq_true_eq] at h
  simp [intUnsignedColumn, h]

theorem toNat_of_fits (v : Int) (h : fitsIntUnsigned v = true) : ((v.toNat : Nat) : Int) = v := by
  unfold fitsIntUnsigned at h
  simp only [decide_eq_true_eq] at h
  exact Int.toNat_of_nonneg h.1

theorem textColumn_of_fits (strict : Bool) (s : String) (h : fitsText s = true) :
    textColumn strict s = .ok (some s) := by
  simp [textColumn, h]

end sql

namespace habits

theorem insertColumns_storable (strict : Bool) (reportId : Nat) (report : HabitsReport)
    (h : storable report = true) :
    insertColumns strict reportId (insertArgs report) = .ok (storedRow reportId report) := by
  unfold storable at h
  simp only [Bool.and_eq_true] at h
  obtain ⟨⟨⟨⟨⟨⟨⟨⟨h1, h2⟩, h3⟩, h4⟩, h5⟩, h6⟩, h7⟩, h8⟩, h9⟩ := h
  simp only [insertColumns, insertArgs, sql.intUnsignedColumn_of_fits strict _ h1,
    sql.intUnsignedColumn_of_fits strict _ h2, sql.intUnsignedColumn_of_fits strict _ h3,
    sql.intUnsignedColumn_of_fits strict _ h4, sql.intUnsignedColumn_of_fits strict _ h5,
    sql.textColumn_of_fits strict _ h6, sql.textColumn_of_fits strict _ h7, sql.textColumn_of_fits strict _ h8,
    sql.textColumn_of_fits strict _ h9]
  rfl

theorem storedRow_Scan (reportId : Nat) (report : HabitsReport) (h : storable report = true) :
    scanHabitsReport ⟨(storedRow reportId report).Scan⟩
      = (some { report with ReportID := reportId }, none) := by
  unfold storable at h
  simp only [Bool.and_eq_true] at h
  obtain ⟨⟨⟨⟨⟨⟨⟨⟨h1, h2⟩, h3⟩, h4⟩, h5⟩, h6⟩, h7⟩, h8⟩, h9⟩ := h
  have e1 := sql.toNat_of_fits _ h1
  have e2 := sql.toNat_of_fits _ h2
  have e3 := sql.toNat_of_fits _ h3
  have e4 := sql.toNat_of_fits _ h4
  have e5 := sql.toNat_of_fits _ h5
  simp only [scanHabitsReport, Row.Scan, storedRow, sql.scanInt, sql.scanNullString,
    bind, Except.bind, pure, Except.pure, e1, e2, e3, e4, e5]

theorem AddHabitsReport_tableDB (t : Table) (report : HabitsReport)
    (hctr : (t.autoIncrement : Int) ≤ sql.maxIntUnsigned) (h : storable report = true) :
    AddHabitsReport tableDB report t
      = (((t.autoIncrement : Int), none),
          { t with rows := t.rows ++ [storedRow t.autoIncrement report],
                   autoIncrement := t.autoIncrement + 1 }) := by
  simp [AddHabitsReport, execAffectingOneRow, tableDB, Table.insert,
    insertColumns_storable _ _ report h, hctr]

theorem queryRow_inserted (t : Table) (row : Row) (hwf : t.WF)
    (hid : row.report_id = t.autoIncrement) :
    Table.queryRow (t.autoIncrement : Int)
        { t with rows := t.rows ++ [row], autoIncrement := t.autoIncrement + 1 }
      = ⟨row.Scan⟩ := by
  have hnone : t.rows.find? (fun r => decide (r.report_id = t.autoIncrement)) = none := by
    rw [List.find?_eq_none]
    intro r hr
    have := hwf r hr
    simp only [decide_eq_true_eq]
    omega
  simp [Table.queryRow, List.find?_append, hnone, hid]

theorem WF_insert (t : Table) (row : Row) (hwf : t.WF) (hid : row.report_id = t.autoIncrement) :
    Table.WF { t with rows := t.rows ++ [row], autoIncrement := t.autoIncrement + 1 } := by
  intro r hr
  simp only [List.mem_append, List.mem_singleton] at hr
  rcases hr with hr | rfl
  · have := hwf r hr
    simp only
    omega
  · simp only
    omega

end habits

namespace tasks

theorem insertColumns_storable_tasks (strict : Bool) (reportId : Nat) (report : TasksReport)
    (h : storable report = true) :
    insertColumns strict reportId (insertArgs report) = .ok (storedRow reportId report) := by
  unfold storable at h
  simp only [Bool.and_eq_true] at h
  obtain ⟨⟨⟨⟨⟨h1, h2⟩, h3⟩, h4⟩, h5⟩, h6⟩ := h
  simp only [insertColumns, insertArgs, sql.intUnsignedColumn_of_fits strict _ h1,
    sql.intUnsignedColumn_of_fits strict _ h2, sql.intUnsignedColumn_of_fits strict _ h3,
    sql.intUnsignedColumn_of_fits strict _ h4, sql.intUnsignedColumn_of_fits strict _ h5,
    sql.intUnsignedColumn_of_fits strict _ h6]
  rfl

theorem storedRow_Scan_tasks (reportId : Nat) (report : TasksReport)
    (h : storable report = true) :
    scanTasksReport ⟨(storedRow reportId report).Scan⟩
      = (some { report with ReportID := reportId }, none) := by
  unfold storable at h
  simp only [Bool.and_eq_true] at h
  obtain ⟨⟨⟨⟨⟨h1, h2⟩, h3⟩, h4⟩, h5⟩, h6⟩ := h
  have e1 := sql.toNat_of_fits _ h1
  have e2 := sql.toNat_of_fits _ h2
  have e3 := sql.toNat_of_fits _ h3
  have e4 := sql.toNat_of_fits _ h4
  have e5 := sql.toNat_of_fits _ h5
  have e6 := sql.toNat_of_fits _ h6
  simp only [scanTasksReport, Row.Scan, storedRow, sql.scanInt,
    bind, Except.bind, pure, Except.pure, e1, e2, e3, e4, e5, e6]

theorem AddTasksReport_tableDB (t : Table) (report : TasksReport)
    (hctr : (t.autoIncrement : Int) ≤ sql.maxIntUnsigned) (h : storable report = true) :
    AddTasksReport tableDB report t
      = (((t.autoIncrement : Int), none),
          { t with rows := t.rows ++ [storedRow t.autoIncrement report],
                   autoIncrement := t.autoIncrement + 1 }) := by
  simp [AddTasksReport, execAffectingOneRow, tableDB, Table.insert,
    insertColumns_storable_tasks _ _ report h, hctr]

theorem queryRow_inserted_tasks (t : Table) (row : Row) (hwf : t.WF)
    (hid : row.report_id = t.autoIncrement) :
    Table.queryRow (t.autoIncrement : Int)
        { t with rows := t.rows ++ [row], autoIncrement := t.autoIncrement + 1 }
      = ⟨row.Scan⟩ := by
  have hnone : t.rows.find? (fun r => decide (r.report_id = t.autoIncrement)) = none := by
    rw [List.find?_eq_none]
    intro r hr
    have := hwf r hr
    simp only [decide_eq_true_eq]
    omega
  simp [Table.queryRow, List.find?_append, hnone, hid]

theorem WF_insert_tasks (t : Table) (row : Row) (hwf : t.WF)
    (hid : row.report_id = t.autoIncrement) :
    Table.WF { t with rows := t.rows ++ [row], autoIncrement := t.autoIncrement + 1 } := by
  intro r hr
  simp only [List.mem_append, List.mem_singleton] at hr
  rcases hr with hr | rfl
  · have := hwf r hr
    simp only
    omega
  · simp only
    omega

end tasks

/-- C8, as the code has it: on a table whose stored keys are below its `AUTO_INCREMENT`
counter and whose counter has not passed the largest `INT UNSIGNED`, on a server in strict
SQL mode or not, adding a report whose
counts fit `INT UNSIGNED` columns and whose texts fit `TEXT` columns succeeds and returns the
counter as `reportId`, and getting that `reportId` from the resulting table succeeds and
yields the added report with `ReportID` set to the returned `reportId`, every other field
unchanged; the resulting table again has its keys below its counter. -/
theorem store_round_trip :
    (∀ (t : habits.Table) (report : habits.HabitsReport), t.WF →
        (t.autoIncrement : Int) ≤ sql.maxIntUnsigned → habits.storable report = true →
        (habits.AddHabitsReport habits.tableDB report t).1 = ((t.autoIncrement : Int), none)
        ∧ habits.GetHabitsReport habits.tableDB (habits.AddHabitsReport habits.tableDB report t).1.1
            (habits.AddHabitsReport habits.tableDB report t).2
          = (some { report with
              ReportID := (habits.AddHabitsReport habits.tableDB report t).1.1 }, none)
        ∧ (habits.AddHabitsReport habits.tableDB report t).2.WF)
    ∧ (∀ (t : tasks.Table) (report : tasks.TasksReport), t.WF →
        (t.autoIncrement : Int) ≤ sql.maxIntUnsigned → tasks.storable report = true →
        (tasks.AddTasksReport tasks.tableDB report t).1 = ((t.autoIncrement : Int), none)
        ∧ tasks.GetTasksReport tasks.tableDB (tasks.AddTasksReport tasks.tableDB report t).1.1
            (tasks.AddTasksReport tasks.tableDB report t).2
          = (some { report with
              ReportID := (tasks.AddTasksReport tasks.tableDB report t).1.1 }, none)
        ∧ (tasks.AddTasksReport tasks.tableDB report t).2.WF) := by
  constructor
  · intro t report hwf hctr hfit
    rw [habits.AddHabitsReport_tableDB t report hctr hfit]
    refine ⟨rfl, ?_, habits.WF_insert t _ hwf rfl⟩
    have hq := habits.queryRow_inserted t (habits.storedRow t.autoIncrement report) hwf rfl
    have hs := habits.storedRow_Scan t.autoIncrement report hfit
    simp only [habits.GetHabitsReport, habits.tableDB, hq, hs]
    simp
  · intro t report hwf hctr hfit
    rw [tasks.AddTasksReport_tableDB t report hctr hfit]
    refine ⟨rfl, ?_, tasks.WF_insert_tasks t _ hwf rfl⟩
    have hq := tasks.queryRow_inserted_tasks t (tasks.storedRow t.autoIncrement report) hwf rfl
    have hs := tasks.storedRow_Scan_tasks t.autoIncrement report hfit
    simp only [tasks.GetTasksReport, tasks.tableDB, hq, hs]
    simp

theorem store_round_trip_witness :
    (habits.Table.empty.WF ∧ (habits.Table.empty.autoIncrement : Int) ≤ sql.maxIntUnsigned
      ∧ habits.storable habits.scenarioReport = true)
    ∧ ((habits.AddHabitsReport habits.tableDB habits.scenarioReport habits.Table.empty).1
          = ((habits.Table.empty.autoIncrement : Int), none)
      ∧ habits.GetHabitsReport habits.tableDB
          (habits.AddHabitsReport habits.tableDB habits.scenarioReport habits.Table.empty).1.1
          (habits.AddHabitsReport habits.tableDB habits.scenarioReport habits.Table.empty).2
        = (some { habits.scenarioReport with
            ReportID := (habits.AddHabitsReport habits.tableDB habits.scenarioReport
              habits.Table.empty).1.1 }, none)
      ∧ (habits.AddHabitsReport habits.tableDB habits.scenarioReport habits.Table.empty).2.WF)
    ∧ (tasks.Table.empty.WF ∧ (tasks.Table.empty.autoIncrement : Int) ≤ sql.maxIntUnsigned
      ∧ tasks.storable tasks.scenarioReport = true)
    ∧ ((tasks.AddTasksReport tasks.tableDB tasks.scenarioReport tasks.Table.empty).1
          = ((tasks.Table.empty.autoIncrement : Int), none)
      ∧ tasks.GetTasksReport tasks.tableDB
          (tasks.AddTasksReport tasks.tableDB tasks.scenarioReport tasks.Table.empty).1.1
          (tasks.AddTasksReport tasks.tableDB tasks.scenarioReport tasks.Table.empty).2
        = (some { tasks.scenarioReport with
            ReportID := (tasks.AddTasksReport tasks.tableDB tasks.scenarioReport
              tasks.Table.empty).1.1 }, none)
      ∧ (tasks.AddTasksReport tasks.tableDB tasks.scenarioReport tasks.Table.empty).2.WF)
    ∧ (habits.Table.emptyLenient.WF
      ∧ (habits.Table.emptyLenient.autoIncrement : Int) ≤ sql.maxIntUnsigned)
    ∧ ((habits.AddHabitsReport habits.tableDB habits.scenarioReport
          habits.Table.emptyLenient).1
          = ((habits.Table.emptyLenient.autoIncrement : Int), none)
      ∧ habits.GetHabitsReport habits.tableDB
          (habits.AddHabitsReport habits.tableDB habits.scenarioReport
            habits.Table.emptyLenient).1.1
          (habits.AddHabitsReport habits.tableDB habits.scenarioReport
            habits.Table.emptyLenient).2
        = (some { habits.scenarioReport with
            ReportID := (habits.AddHabitsReport habits.tableDB habits.scenarioReport
              habits.Table.emptyLenient).1.1 }, none)
      ∧ (habits.AddHabitsReport habits.tableDB habits.scenarioReport
          habits.Table.emptyLenient).2.WF) :=
  ⟨⟨(fun _ hr => nomatch hr), by decide, by decide⟩,
    store_round_trip.1 habits.Table.empty habits.scenarioReport (fun _ hr => nomatch hr)
      (by decide) (by decide),
    ⟨(fun _ hr => nomatch hr), by decide, by decide⟩,
    store_round_trip.2 tasks.Table.empty tasks.scenarioReport (fun _ hr => nomatch hr)
      (by decide) (by decide),
    ⟨(fun _ hr => nomatch hr), by decide⟩,
    store_round_trip.1 habits.Table.emptyLenient habits.scenarioReport
      (fun _ hr => nomatch hr) (by decide) (by decide)⟩

/-- C8 as stated fails.  A freshly generated report has `ReportID` 0; added to the empty
table it is stored under the key 1 and read back with `ReportID` 1, so the report read back
is not the report added, for habits and for tasks.  And a report with the non-negative count
`4294967296`, or with a title holding a four-byte character, is not read back either, whatever
the SQL mode of the server: in strict mode `Add` returns an error, otherwise the report read
back differs from the report added in more than its `ReportID`. -/
theorem store_round_trip_counterexample :
    ((habits.AddHabitsReport habits.tableDB habits.scenarioReport habits.Table.empty).1
        = (1, none)
      ∧ habits.GetHabitsReport habits.tableDB 1
          (habits.AddHabitsReport habits.tableDB habits.scenarioReport habits.Table.empty).2
        = (some { habits.scenarioReport with ReportID := 1 }, none)
      ∧ habits.GetHabitsReport habits.tableDB 1
          (habits.AddHabitsReport habits.tableDB habits.scenarioReport habits.Table.empty).2
        ≠ (some habits.scenarioReport, none))
    ∧ ((tasks.AddTasksReport tasks.tableDB tasks.scenarioReport tasks.Table.empty).1
        = (1, none)
      ∧ tasks.GetTasksReport tasks.tableDB 1
          (tasks.AddTasksReport tasks.tableDB tasks.scenarioReport tasks.Table.empty).2
        = (some { tasks.scenarioReport with ReportID := 1 }, none)
      ∧ tasks.GetTasksReport tasks.tableDB 1
          (tasks.AddTasksReport tasks.tableDB tasks.scenarioReport tasks.Table.empty).2
        ≠ (some tasks.scenarioReport, none))
    ∧ (0 ≤ habits.wideReport.RangeCount.Red
      ∧ (habits.AddHabitsReport habits.tableDB habits.wideReport habits.Table.empty).1.2 ≠ none
      ∧ habits.GetHabitsReport habits.tableDB
          (habits.AddHabitsReport habits.tableDB habits.wideReport
            habits.Table.emptyLenient).1.1
          (habits.AddHabitsReport habits.tableDB habits.wideReport habits.Table.emptyLenient).2
        ≠ (some { habits.wideReport with
            ReportID := (habits.AddHabitsReport habits.tableDB habits.wideReport
              habits.Table.emptyLenient).1.1 }, none))
    ∧ (0 ≤ tasks.wideReport.Completed.Total
      ∧ (tasks.AddTasksReport tasks.tableDB tasks.wideReport tasks.Table.empty).1.2 ≠ none
      ∧ tasks.GetTasksReport tasks.tableDB
          (tasks.AddTasksReport tasks.tableDB tasks.wideReport tasks.Table.emptyLenient).1.1
          (tasks.AddTasksReport tasks.tableDB tasks.wideReport tasks.Table.emptyLenient).2
        ≠ (some { tasks.wideReport with
            ReportID := (tasks.AddTasksReport tasks.tableDB tasks.wideReport
              tasks.Table.emptyLenient).1.1 }, none))
    ∧ ((habits.AddHabitsReport habits.tableDB habits.emojiReport habits.Table.empty).1.2
        ≠ none
      ∧ habits.GetHabitsReport habits.tableDB
          (habits.AddHabitsReport habits.tableDB habits.emojiReport
            habits.Table.emptyLenient).1.1
          (habits.AddHabitsReport habits.tableDB habits.emojiReport
            habits.Table.emptyLenient).2
        ≠ (some { habits.emojiReport with
            ReportID := (habits.AddHabitsReport habits.tableDB habits.emojiReport
              habits.Table.emptyLenient).1.1 }, none)) := by
  refine ⟨⟨?_, ?_, ?_⟩, ⟨?_, ?_, ?_⟩, ⟨?_, ?_, ?_⟩, ⟨?_, ?_, ?_⟩, ⟨?_, ?_⟩⟩ <;> decide

/-- C9: `AddHabitsReport` and `AddTasksReport` succeed only when the insert affected exactly
one row.  When the execution of the statement succeeds and reports `n` rows affected,
`execAffectingOneRow` returns an error exactly when `n ≠ 1`; whenever `Add` returns an error
the `reportId` it returns with it is 0; and when `Add` returns no error, the statement was
executed successfully, affected one row, and the `reportId` is its last insert id.
Conversely the outcome of the insert decides what `Add` returns: an execution that succeeds,
reports one row and has the last insert id `lastInsertID` makes `Add` return
`(lastInsertID, nil)`; an execution that reports `n ≠ 1` rows, an execution that fails, a row
count that cannot be read and a last insert id that cannot be read each make `Add` return 0
and the error built for that case; and `execAffectingOneRow` hands on the result of an
execution that succeeded on one row. -/
theorem add_report_affects_one_row :
    (∀ (σ Args : Type) (stmt : Args → σ → Except sql.GoError sql.Result × σ) (args : Args)
        (s s1 : σ) (result : sql.Result) (n : Int),
        stmt args s = (.ok result, s1) → result.RowsAffected = .ok n →
        ((∃ err, (habits.execAffectingOneRow stmt args s).1 = .error err) ↔ n ≠ 1))
    ∧ (∀ (σ : Type) (db : habits.mysqlDB σ) (report : habits.HabitsReport) (s : σ)
        (err : sql.GoError), (habits.AddHabitsReport db report s).1.2 = some err →
        (habits.AddHabitsReport db report s).1.1 = 0)
    ∧ (∀ (σ : Type) (db : habits.mysqlDB σ) (report : habits.HabitsReport) (s : σ),
        (habits.AddHabitsReport db report s).1.2 = none →
        ∃ result, db.insert (habits.insertArgs report) s
            = (.ok result, (habits.AddHabitsReport db report s).2)
          ∧ result.RowsAffected = .ok 1
          ∧ result.LastInsertId = .ok (habits.AddHabitsReport db report s).1.1)
    ∧ (∀ (σ Args : Type) (stmt : Args → σ → Except sql.GoError sql.Result × σ) (args : Args)
        (s s1 : σ) (result : sql.Result) (n : Int),
        stmt args s = (.ok result, s1) → result.RowsAffected = .ok n →
        ((∃ err, (tasks.execAffectingOneRow stmt args s).1 = .error err) ↔ n ≠ 1))
    ∧ (∀ (σ : Type) (db : tasks.mysqlDB σ) (report : tasks.TasksReport) (s : σ)
        (err : sql.GoError), (tasks.AddTasksReport db report s).1.2 = some err →
        (tasks.AddTasksReport db report s).1.1 = 0)
    ∧ (∀ (σ : Type) (db : tasks.mysqlDB σ) (report : tasks.TasksReport) (s : σ),
        (tasks.AddTasksReport db report s).1.2 = none →
        ∃ result, db.insert (tasks.insertArgs report) s
            = (.ok result, (tasks.AddTasksReport db report s).2)
          ∧ result.RowsAffected = .ok 1
          ∧ result.LastInsertId = .ok (tasks.AddTasksReport db report s).1.1)
    ∧ (∀ (σ : Type) (db : habits.mysqlDB σ) (report : habits.HabitsReport) (s s1 : σ)
        (result : sql.Result) (lastInsertID : Int),
        db.insert (habits.insertArgs report) s = (.ok result, s1) →
        result.RowsAffected = .ok 1 → result.LastInsertId = .ok lastInsertID →
        habits.AddHabitsReport db report s = ((lastInsertID, none), s1))
    ∧ (∀ (σ : Type) (db : habits.mysqlDB σ) (report : habits.HabitsReport) (s s1 : σ)
        (result : sql.Result) (n : Int),
        db.insert (habits.insertArgs report) s = (.ok result, s1) →
        result.RowsAffected = .ok n → n ≠ 1 →
        habits.AddHabitsReport db report s
          = ((0, some (.Errorf ("mysql: expected 1 row affected, got " ++ toString n))), s1))
    ∧ (∀ (σ : Type) (db : habits.mysqlDB σ) (report : habits.HabitsReport) (s s1 : σ)
        (e : sql.GoError),
        db.insert (habits.insertArgs report) s = (.error e, s1) →
        habits.AddHabitsReport db report s
          = ((0, some (.Errorf ("mysql: could not execute statement: " ++ e.Error))), s1))
    ∧ (∀ (σ : Type) (db : habits.mysqlDB σ) (report : habits.HabitsReport) (s s1 : σ)
        (result : sql.Result) (e : sql.GoError),
        db.insert (habits.insertArgs report) s = (.ok result, s1) →
        result.RowsAffected = .error e →
        habits.AddHabitsReport db report s
          = ((0, some (.Errorf ("mysql: could not get rows affected: " ++ e.Error))), s1))
    ∧ (∀ (σ : Type) (db : habits.mysqlDB σ) (report : habits.HabitsReport) (s s1 : σ)
        (result : sql.Result) (e : sql.GoError),
        db.insert (habits.insertArgs report) s = (.ok result, s1) →
        result.RowsAffected = .ok 1 → result.LastInsertId = .error e →
        habits.AddHabitsReport db report s
          = ((0, some (.Errorf ("mysql: could not get last insert ID: " ++ e.Error))), s1))
    ∧ (∀ (σ Args : Type) (stmt : Args → σ → Except sql.GoError sql.Result × σ) (args : Args)
        (s s1 : σ) (result : sql.Result),
        stmt args s = (.ok result, s1) → result.RowsAffected = .ok 1 →
        habits.execAffectingOneRow stmt args s = (.ok result, s1))
    ∧ (∀ (σ : Type) (db : tasks.mysqlDB σ) (report : tasks.TasksReport) (s s1 : σ)
        (result : sql.Result) (lastInsertID : Int),
        db.insert (tasks.insertArgs report) s = (.ok result, s1) →
        result.RowsAffected = .ok 1 → result.LastInsertId = .ok lastInsertID →
        tasks.AddTasksReport db report s = ((lastInsertID, none), s1))
    ∧ (∀ (σ : Type) (db : tasks.mysqlDB σ) (report : tasks.TasksReport) (s s1 : σ)
        (result : sql.Result) (n : Int),
        db.insert (tasks.insertArgs report) s = (.ok result, s1) →
        result.RowsAffected = .ok n → n ≠ 1 →
        tasks.AddTasksReport db report s
          = ((0, some (.Errorf ("mysql: expected 1 row affected, got " ++ toString n))), s1))
    ∧ (∀ (σ : Type) (db : tasks.mysqlDB σ) (report : tasks.TasksReport) (s s1 : σ)
        (e : sql.GoError),
        db.insert (tasks.insertArgs report) s = (.error e, s1) →
        tasks.AddTasksReport db report s
          = ((0, some (.Errorf ("mysql: could not execute statement: " ++ e.Error))), s1))
    ∧ (∀ (σ : Type) (db : tasks.mysqlDB σ) (report : tasks.TasksReport) (s s1 : σ)
        (result : sql.Result) (e : sql.GoError),
        db.insert (tasks.insertArgs report) s = (.ok result, s1) →
        result.RowsAffected = .error e →
        tasks.AddTasksReport db report s
          = ((0, some (.Errorf ("mysql: could not get rows affected: " ++ e.Error))), s1))
    ∧ (∀ (σ : Type) (db : tasks.mysqlDB σ) (report : tasks.TasksReport) (s s1 : σ)
        (result : sql.Result) (e : sql.GoError),
        db.insert (tasks.insertArgs report) s = (.ok result, s1) →
        result.RowsAffected = .ok 1 → result.LastInsertId = .error e →
        tasks.AddTasksReport db report s
          = ((0, some (.Errorf ("mysql: could not get last insert ID: " ++ e.Error))), s1))
    ∧ (∀ (σ Args : Type) (stmt : Args → σ → Except sql.GoError sql.Result × σ) (args : Args)
        (s s1 : σ) (result : sql.Result),
        stmt args s = (.ok result, s1) → result.RowsAffected = .ok 1 →
        tasks.execAffectingOneRow stmt args s = (.ok result, s1)) :=
  ⟨fun _ _ stmt args s s1 result n h1 h2 =>
      habits.execAffectingOneRow_error_iff stmt args s s1 result n h1 h2,
    fun _ db report s err h => habits.AddHabitsReport_error db report s err h,
    fun _ db report s h => habits.AddHabitsReport_success db report s h,
    fun _ _ stmt args s s1 result n h1 h2 =>
      tasks.execAffectingOneRow_error_iff_tasks stmt args s s1 result n h1 h2,
    fun _ db report s err h => tasks.AddTasksReport_error db report s err h,
    fun _ db report s h => tasks.AddTasksReport_success db report s h,
    fun _ db report s s1 result lastInsertID h1 h2 h3 =>
      habits.AddHabitsReport_of_one_row db report s s1 result lastInsertID h1 h2 h3,
    fun _ db report s s1 result n h1 h2 h3 =>
      habits.AddHabitsReport_of_row_count db report s s1 result n h1 h2 h3,
    fun _ db report s s1 e h1 => habits.AddHabitsReport_of_exec_error db report s s1 e h1,
    fun _ db report s s1 result e h1 h2 =>
      habits.AddHabitsReport_of_rows_error db report s s1 result e h1 h2,
    fun _ db report s s1 result e h1 h2 h3 =>
      habits.AddHabitsReport_of_id_error db report s s1 result e h1 h2 h3,
    fun _ _ stmt args s s1 result h1 h2 =>
      habits.execAffectingOneRow_of_one_row stmt args s s1 result h1 h2,
    fun _ db report s s1 result lastInsertID h1 h2 h3 =>
      tasks.AddTasksReport_of_one_row db report s s1 result lastInsertID h1 h2 h3,
    fun _ db report s s1 result n h1 h2 h3 =>
      tasks.AddTasksReport_of_row_count db report s s1 result n h1 h2 h3,
    fun _ db report s s1 e h1 => tasks.AddTasksReport_of_exec_error db report s s1 e h1,
    fun _ db report s s1 result e h1 h2 =>
      tasks.AddTasksReport_of_rows_error db report s s1 result e h1 h2,
    fun _ db report s s1 result e h1 h2 h3 =>
      tasks.AddTasksReport_of_id_error db report s s1 result e h1 h2 h3,
    fun _ _ stmt args s s1 result h1 h2 =>
      tasks.execAffectingOneRow_of_one_row_tasks stmt args s s1 result h1 h2⟩

theorem add_report_affects_one_row_witness :
    (habits.AddHabitsReport habits.tableDB habits.scenarioReport habits.Table.empty).1.2 = none
    ∧ (∃ result, habits.tableDB.insert (habits.insertArgs habits.scenarioReport)
            habits.Table.empty
          = (.ok result,
              (habits.AddHabitsReport habits.tableDB habits.scenarioReport
                habits.Table.empty).2)
        ∧ result.RowsAffected = .ok 1
        ∧ result.LastInsertId
            = .ok (habits.AddHabitsReport habits.tableDB habits.scenarioReport
                habits.Table.empty).1.1)
    ∧ ((∃ err, (tasks.execAffectingOneRow
          (fun (_ : Unit) (s : Unit) =>
            ((.ok ⟨.ok 7, .ok 0⟩ : Except sql.GoError sql.Result), s)) () ()).1 = .error err)
        ↔ (0 : Int) ≠ 1)
    ∧ tasks.AddTasksReport (tasks.fixedDB (.ok ⟨.ok 7, .ok 1⟩)) tasks.scenarioReport ()
        = ((7, none), ())
    ∧ habits.AddHabitsReport (habits.fixedDB (.ok ⟨.ok 7, .ok 1⟩)) habits.scenarioReport ()
        = ((7, none), ())
    ∧ tasks.AddTasksReport (tasks.fixedDB (.ok ⟨.ok 7, .ok 0⟩)) tasks.scenarioReport ()
        = ((0, some (.Errorf ("mysql: expected 1 row affected, got " ++ toString (0 : Int)))),
            ())
    ∧ habits.AddHabitsReport (habits.fixedDB (.ok ⟨.ok 7, .ok 2⟩)) habits.scenarioReport ()
        = ((0, some (.Errorf ("mysql: expected 1 row affected, got " ++ toString (2 : Int)))),
            ())
    ∧ tasks.AddTasksReport (tasks.fixedDB (.error .ErrBadConn)) tasks.scenarioReport ()
        = ((0, some (.Errorf ("mysql: could not execute statement: "
            ++ sql.GoError.ErrBadConn.Error))), ()) :=
  ⟨by decide,
    add_report_affects_one_row.2.2.1 habits.Table habits.tableDB habits.scenarioReport
      habits.Table.empty (by decide),
    add_report_affects_one_row.2.2.2.1 Unit Unit _ () () () ⟨.ok 7, .ok 0⟩ 0 rfl rfl,
    add_report_affects_one_row.2.2.2.2.2.2.2.2.2.2.2.2.1 Unit
      (tasks.fixedDB (.ok ⟨.ok 7, .ok 1⟩)) tasks.scenarioReport () () ⟨.ok 7, .ok 1⟩ 7
      rfl rfl rfl,
    add_report_affects_one_row.2.2.2.2.2.2.1 Unit
      (habits.fixedDB (.ok ⟨.ok 7, .ok 1⟩)) habits.scenarioReport () () ⟨.ok 7, .ok 1⟩ 7
      rfl rfl rfl,
    add_report_affects_one_row.2.2.2.2.2.2.2.2.2.2.2.2.2.1 Unit
      (tasks.fixedDB (.ok ⟨.ok 7, .ok 0⟩)) tasks.scenarioReport () () ⟨.ok 7, .ok 0⟩ 0
      rfl rfl (by decide),
    add_report_affects_one_row.2.2.2.2.2.2.2.1 Unit
      (habits.fixedDB (.ok ⟨.ok 7, .ok 2⟩)) habits.scenarioReport () () ⟨.ok 7, .ok 2⟩ 2
      rfl rfl (by decide),
    add_report_affects_one_row.2.2.2.2.2.2.2.2.2.2.2.2.2.2.1 Unit
      (tasks.fixedDB (.error .ErrBadConn)) tasks.scenarioReport () () .ErrBadConn rfl⟩

/-- C10: `GetHabitsReport` and `GetTasksReport` on a `reportId` for which the lookup yields no
row return no report and the not-found error (on the table this is the result exactly when no
stored row has that key); when the scan fails for another reason they return no report and
the decode error, which differs from the not-found error of every `reportId`; and a report is
returned only with a nil error, when a row was found (on the table: a stored row with that
key) and scanned successfully. -/
theorem get_report_not_found :
    ((∀ (σ : Type) (db : habits.mysqlDB σ) (reportId : Int) (s : σ),
        (db.get reportId s).Scan = .error .ErrNoRows →
        habits.GetHabitsReport db reportId s
          = (none, some (.Errorf ("msql: could not find report with id "
              ++ toString reportId))))
      ∧ (∀ (t : habits.Table) (reportId : Int),
        habits.GetHabitsReport habits.tableDB reportId t
            = (none, some (.Errorf ("msql: could not find report with id "
                ++ toString reportId)))
          ↔ ∀ r ∈ t.rows, (r.report_id : Int) ≠ reportId)
      ∧ (∀ (σ : Type) (db : habits.mysqlDB σ) (reportId : Int) (s : σ) (e : sql.GoError),
        (db.get reportId s).Scan = .error e → e ≠ .ErrNoRows →
        habits.GetHabitsReport db reportId s
            = (none, some (.Errorf ("mysql: could not get habits report: " ++ e.Error)))
          ∧ ∀ otherId : Int,
              sql.GoError.Errorf ("msql: could not find report with id " ++ toString otherId)
                ≠ sql.GoError.Errorf ("mysql: could not get habits report: " ++ e.Error))
      ∧ (∀ (σ : Type) (db : habits.mysqlDB σ) (reportId : Int) (s : σ)
          (report : habits.HabitsReport),
        (habits.GetHabitsReport db reportId s).1 = some report →
        (habits.GetHabitsReport db reportId s).2 = none
          ∧ (∃ v, (db.get reportId s).Scan = .ok v)
          ∧ habits.scanHabitsReport (db.get reportId s) = (some report, none))
      ∧ (∀ (t : habits.Table) (reportId : Int) (report : habits.HabitsReport),
        (habits.GetHabitsReport habits.tableDB reportId t).1 = some report →
        ∃ r ∈ t.rows, (r.report_id : Int) = reportId ∧ ∃ v, r.Scan = .ok v))
    ∧ ((∀ (σ : Type) (db : tasks.mysqlDB σ) (reportId : Int) (s : σ),
        (db.get reportId s).Scan = .error .ErrNoRows →
        tasks.GetTasksReport db reportId s
          = (none, some (.Errorf ("msql: could not find report with id "
              ++ toString reportId))))
      ∧ (∀ (t : tasks.Table) (reportId : Int),
        tasks.GetTasksReport tasks.tableDB reportId t
            = (none, some (.Errorf ("msql: could not find report with id "
                ++ toString reportId)))
          ↔ ∀ r ∈ t.rows, (r.report_id : Int) ≠ reportId)
      ∧ (∀ (σ : Type) (db : tasks.mysqlDB σ) (reportId : Int) (s : σ) (e : sql.GoError),
        (db.get reportId s).Scan = .error e → e ≠ .ErrNoRows →
        tasks.GetTasksReport db reportId s
            = (none, some (.Errorf ("mysql: could not get tasks report: " ++ e.Error)))
          ∧ ∀ otherId : Int,
              sql.GoError.Errorf ("msql: could not find report with id " ++ toString otherId)
                ≠ sql.GoError.Errorf ("mysql: could not get tasks report: " ++ e.Error))
      ∧ (∀ (σ : Type) (db : tasks.mysqlDB σ) (reportId : Int) (s : σ)
          (report : tasks.TasksReport),
        (tasks.GetTasksReport db reportId s).1 = some report →
        (tasks.GetTasksReport db reportId s).2 = none
          ∧ (∃ v, (db.get reportId s).Scan = .ok v)
          ∧ tasks.scanTasksReport (db.get reportId s) = (some report, none))
      ∧ (∀ (t : tasks.Table) (reportId : Int) (report : tasks.TasksReport),
        (tasks.GetTasksReport tasks.tableDB reportId t).1 = some report →
        ∃ r ∈ t.rows, (r.report_id : Int) = reportId ∧ ∃ v, r.Scan = .ok v)) := by
  refine ⟨⟨?_, ?_, ?_, ?_, ?_⟩, ⟨?_, ?_, ?_, ?_, ?_⟩⟩
  · intro σ db reportId s h
    exact habits.GetHabitsReport_noRows db reportId s h
  · intro t reportId
    exact habits.GetHabitsReport_tableDB_notFound_iff t reportId
  · intro σ db reportId s e h he
    exact ⟨habits.GetHabitsReport_decode db reportId s e h he,
      fun otherId => habits.notFound_ne_decode _ _⟩
  · intro σ db reportId s report h
    exact habits.GetHabitsReport_some db reportId s report h
  · intro t reportId report h
    obtain ⟨_, ⟨v, hv⟩, _⟩ := habits.GetHabitsReport_some habits.tableDB reportId t report h
    obtain ⟨r, hr, hid, hscan⟩ := habits.queryRow_ok t reportId v hv
    exact ⟨r, hr, hid, v, hscan⟩
  · intro σ db reportId s h
    exact tasks.GetTasksReport_noRows_tasks db reportId s h
  · intro t reportId
    exact tasks.GetTasksReport_tableDB_notFound_iff t reportId
  · intro σ db reportId s e h he
    exact ⟨tasks.GetTasksReport_decode_tasks db reportId s e h he,
      fun otherId => tasks.notFound_ne_decode_tasks _ _⟩
  · intro σ db reportId s report h
    exact tasks.GetTasksReport_some_tasks db reportId s report h
  · intro t reportId report h
    obtain ⟨_, ⟨v, hv⟩, _⟩ := tasks.GetTasksReport_some_tasks tasks.tableDB reportId t report h
    obtain ⟨r, hr, hid, hscan⟩ := tasks.queryRow_ok_tasks t reportId v hv
    exact ⟨r, hr, hid, v, hscan⟩

theorem get_report_not_found_witness :
    (∀ r ∈ (habits.AddHabitsReport habits.tableDB habits.scenarioReport
          habits.Table.empty).2.rows, (r.report_id : Int) ≠ 2)
    ∧ habits.GetHabitsReport habits.tableDB 2
        (habits.AddHabitsReport habits.tableDB habits.scenarioReport habits.Table.empty).2
      = (none, some (.Errorf ("msql: could not find report with id " ++ toString (2 : Int))))
    ∧ (∀ r ∈ tasks.Table.empty.rows, (r.report_id : Int) ≠ 1)
    ∧ tasks.GetTasksReport tasks.tableDB 1 tasks.Table.empty
      = (none, some (.Errorf ("msql: could not find report with id " ++ toString (1 : Int)))) :=
  ⟨by decide,
    (get_report_not_found.1.2.1 _ 2).2 (by decide),
    by decide,
    (get_report_not_found.2.2.1 _ 1).2 (by decide)⟩

/-! ## Properties of the slice reads -/

namespace Go

theorem foldlM_range_take {α β : Type} (xs : List α) (body : β → α → β) (init : β) (n : Nat)
    (hn : n ≤ xs.length) :
    (List.range n).foldlM (fun acc i => (xs[i]?).map (body acc)) init
      = some ((xs.take n).foldl body init) := by
  induction n with
  | zero => rfl
  | succ n ih =>
    have hlt : n < xs.length := by omega
    have htake : xs.take (n + 1) = xs.take n ++ [xs[n]] := by
      rw [List.take_succ, List.getElem?_eq_getElem hlt]
      rfl
    rw [List.range_succ, List.foldlM_append, ih (by omega), htake, List.foldl_append]
    simp [List.getElem?_eq_getElem hlt]

/-- No read of the loop is out of range: the loop always ends, on the left fold of the body
over the slice. -/
theorem forRange_eq_foldl {α β : Type} (xs : List α) (body : β → α → β) (init : β) :
    forRange xs body init = some (xs.foldl body init) := by
  unfold forRange
  rw [foldlM_range_take xs body init xs.length (Nat.le_refl _), List.take_length]

end Go

namespace habits

theorem createHabitRangeChecked_eq (hs : List Habit) :
    createHabitRangeChecked hs = some (createHabitRange hs) := by
  unfold createHabitRangeChecked createHabitRange
  exact Go.forRange_eq_foldl hs _ _

theorem findWorstHabitChecked_eq (hs : List Habit) :
    findWorstHabitChecked hs = findWorstHabit hs := by
  cases hs with
  | nil => rfl
  | cons first rest =>
    simp [findWorstHabitChecked, findWorstHabit, Go.forRange_eq_foldl]

theorem findBestHabitChecked_eq (hs : List Habit) :
    findBestHabitChecked hs = findBestHabit hs := by
  cases hs with
  | nil => rfl
  | cons first rest =>
    simp [findBestHabitChecked, findBestHabit, Go.forRange_eq_foldl]

theorem GenerateHabitsReport_fault_iff
    (httpGet : String → Except sql.GoError (Except sql.GoError (List Habit))) :
    GenerateHabitsReport httpGet = none ↔ fetchDatabaseAllHabits httpGet = ([], none) := by
  unfold GenerateHabitsReport
  rcases hfetch : fetchDatabaseAllHabits httpGet with ⟨hs, err⟩
  cases err with
  | some e => simp
  | none =>
    cases hs with
    | nil => simp [findWorstHabit]
    | cons first rest => simp [findWorstHabit, findBestHabit]

end habits

/-- C12: `findWorstHabit` and `findBestHabit` read `allHabits[0]` unconditionally.  On the
empty sequence each faults with an index out of range, so `GenerateHabitsReport` faults,
instead of returning an error, exactly when the fetch succeeds with an empty slice; on every
non-empty sequence neither faults, the reads inside the loop being in range; and
`createHabitRange` never faults and returns all-zero buckets on the empty sequence. -/
theorem habits_empty_sequence_faults :
    (habits.findWorstHabitChecked [] = none ∧ habits.findBestHabitChecked [] = none
      ∧ habits.findWorstHabit [] = none ∧ habits.findBestHabit [] = none)
    ∧ (∀ httpGet : String → Except sql.GoError (Except sql.GoError (List habits.Habit)),
        habits.GenerateHabitsReport httpGet = none
          ↔ habits.fetchDatabaseAllHabits httpGet = ([], none))
    ∧ (∀ allHabits : List habits.Habit, allHabits ≠ [] →
        (habits.findWorstHabitChecked allHabits).isSome = true
        ∧ (habits.findBestHabitChecked allHabits).isSome = true
        ∧ habits.findWorstHabitChecked allHabits = habits.findWorstHabit allHabits
        ∧ habits.findBestHabitChecked allHabits = habits.findBestHabit allHabits)
    ∧ (∀ allHabits : List habits.Habit,
        habits.createHabitRangeChecked allHabits = some (habits.createHabitRange allHabits))
    ∧ habits.createHabitRange [] = ⟨0, 0, 0, 0, 0⟩ := by
  refine ⟨⟨rfl, rfl, rfl, rfl⟩, habits.GenerateHabitsReport_fault_iff, ?_,
    habits.createHabitRangeChecked_eq, rfl⟩
  intro allHabits hne
  rw [habits.findWorstHabitChecked_eq, habits.findBestHabitChecked_eq]
  cases allHabits with
  | nil => exact absurd rfl hne
  | cons first rest => exact ⟨rfl, rfl, rfl, rfl⟩

theorem habits_empty_sequence_faults_witness :
    habits.scenarioHabits ≠ []
    ∧ ((habits.findWorstHabitChecked habits.scenarioHabits).isSome = true
      ∧ (habits.findBestHabitChecked habits.scenarioHabits).isSome = true
      ∧ habits.findWorstHabitChecked habits.scenarioHabits
          = habits.findWorstHabit habits.scenarioHabits
      ∧ habits.findBestHabitChecked habits.scenarioHabits
          = habits.findBestHabit habits.scenarioHabits)
    ∧ habits.fetchDatabaseAllHabits (fun _ => .ok (.ok [])) = ([], none)
    ∧ habits.GenerateHabitsReport (fun _ => .ok (.ok [])) = none :=
  ⟨by decide, habits_empty_sequence_faults.2.2.1 habits.scenarioHabits (by decide), rfl,
    (habits_empty_sequence_faults.2.1 (fun _ => .ok (.ok []))).2 rfl⟩

/-! ## Properties of the schema bootstrap -/

namespace sql

theorem any_isMySQLError_false (err : Option GoError) (number : Nat)
    (h : ∀ m, err ≠ some (.MySQLError number m)) :
    err.any (fun e => e.isMySQLError number) = false := by
  cases err with
  | none => rfl
  | some e =>
    cases e with
    | MySQLError n m =>
      have hn : n ≠ number := by
        intro hn
        exact h m (by rw [hn])
      simp [GoError.isMySQLError, hn]
    | ErrNoRows => rfl
    | ErrBadConn => rfl
    | Errorf msg => rfl

theorem isMySQLError_false (e : GoError) (number : Nat)
    (h : ∀ m, e ≠ .MySQLError number m) : e.isMySQLError number = false := by
  have := any_isMySQLError_false (some e) number (fun m hm => h m (Option.some.inj hm))
  simpa using this

end sql

namespace habits

theorem ensureTableExists_openError {σ : Type}
    (driverOpen : String → String → Except sql.GoError (Conn σ)) (config : MySQLConfig) (s : σ)
    (e : sql.GoError) (hopen : driverOpen "mysql" (config.dataStoreName "") = .error e) :
    ensureTableExists driverOpen config s
      = (some (.Errorf ("mysql: could not get a connection: " ++ e.Error)), s) := by
  simp [ensureTableExists, hopen]

theorem ensureTableExists_badConn {σ : Type}
    (driverOpen : String → String → Except sql.GoError (Conn σ)) (config : MySQLConfig)
    (s s1 : σ) (conn : Conn σ) (hopen : driverOpen "mysql" (config.dataStoreName "") = .ok conn)
    (hping : conn.Ping s = (some .ErrBadConn, s1)) :
    ensureTableExists driverOpen config s
      = (some (.Errorf "mysql: could not connect to db. "), s1) := by
  simp [ensureTableExists, hopen, hping]

theorem ensureTableExists_dbAbsent {σ : Type}
    (driverOpen : String → String → Except sql.GoError (Conn σ)) (config : MySQLConfig)
    (s s1 s2 : σ) (conn : Conn σ) (pingErr : Option sql.GoError) (m : String)
    (hopen : driverOpen "mysql" (config.dataStoreName "") = .ok conn)
    (hping : conn.Ping s = (pingErr, s1)) (hp : pingErr ≠ some .ErrBadConn)
    (huse : conn.Exec "USE arqui" s1 = (some (.MySQLError 1049 m), s2)) :
    ensureTableExists driverOpen config s = createTable conn s2 := by
  simp [ensureTableExists, hopen, hping, hp, huse, sql.GoError.isMySQLError,
    dbDoesNotExistError]

theorem ensureTableExists_present {σ : Type}
    (driverOpen : String → String → Except sql.GoError (Conn σ)) (config : MySQLConfig)
    (s s1 s2 s3 : σ) (conn : Conn σ) (pingErr useErr : Option sql.GoError)
    (hopen : driverOpen "mysql" (config.dataStoreName "") = .ok conn)
    (hping : conn.Ping s = (pingErr, s1)) (hp : pingErr ≠ some .ErrBadConn)
    (huse : conn.Exec "USE arqui" s1 = (useErr, s2))
    (hu : ∀ m, useErr ≠ some (.MySQLError 1049 m))
    (hdesc : conn.Exec "DESCRIBE habits_reports" s2 = (none, s3)) :
    ensureTableExists driverOpen config s = (none, s3) := by
  have hany := sql.any_isMySQLError_false useErr 1049 hu
  simp [ensureTableExists, hopen, hping, hp, huse, hdesc, dbDoesNotExistError, hany]

theorem ensureTableExists_tableAbsent {σ : Type}
    (driverOpen : String → String → Except sql.GoError (Conn σ)) (config : MySQLConfig)
    (s s1 s2 s3 : σ) (conn : Conn σ) (pingErr useErr : Option sql.GoError) (m : String)
    (hopen : driverOpen "mysql" (config.dataStoreName "") = .ok conn)
    (hping : conn.Ping s = (pingErr, s1)) (hp : pingErr ≠ some .ErrBadConn)
    (huse : conn.Exec "USE arqui" s1 = (useErr, s2))
    (hu : ∀ m, useErr ≠ some (.MySQLError 1049 m))
    (hdesc : conn.Exec "DESCRIBE habits_reports" s2 = (some (.MySQLError 1146 m), s3)) :
    ensureTableExists driverOpen config s = createTable conn s3 := by
  have hany := sql.any_isMySQLError_false useErr 1049 hu
  have hyes : (sql.GoError.MySQLError 1146 m).isMySQLError 1146 = true := by
    simp [sql.GoError.isMySQLError]
  simp [ensureTableExists, hopen, hping, hp, huse, hdesc, dbDoesNotExistError, hany,
    tableDoesNotExistError, hyes]

theorem ensureTableExists_describeError {σ : Type}
    (driverOpen : String → String → Except sql.GoError (Conn σ)) (config : MySQLConfig)
    (s s1 s2 s3 : σ) (conn : Conn σ) (pingErr useErr : Option sql.GoError) (e : sql.GoError)
    (hopen : driverOpen "mysql" (config.dataStoreName "") = .ok conn)
    (hping : conn.Ping s = (pingErr, s1)) (hp : pingErr ≠ some .ErrBadConn)
    (huse : conn.Exec "USE arqui" s1 = (useErr, s2))
    (hu : ∀ m, useErr ≠ some (.MySQLError 1049 m))
    (hdesc : conn.Exec "DESCRIBE habits_reports" s2 = (some e, s3))
    (he : ∀ m, e ≠ .MySQLError 1146 m) :
    ensureTableExists driverOpen config s
      = (some (.Errorf ("mysql: could not connect to db: " ++ e.Error)), s3) := by
  have hany := sql.any_isMySQLError_false useErr 1049 hu
  have hno := sql.isMySQLError_false e 1146 he
  simp [ensureTableExists, hopen, hping, hp, huse, hdesc, dbDoesNotExistError, hany,
    tableDoesNotExistError, hno]

theorem createTable_ok_iff {σ : Type} (conn : Conn σ) (s s3 : σ) (c1 c2 c3 : String)
    (hstmts : createTableStatements = [c1, c2, c3]) :
    createTable conn s = (none, s3)
      ↔ ∃ s1 s2, conn.Exec c1 s = (none, s1) ∧ conn.Exec c2 s1 = (none, s2)
          ∧ conn.Exec c3 s2 = (none, s3) := by
  unfold createTable
  rw [hstmts]
  simp only [createTableLoop]
  rcases h1 : conn.Exec c1 s with ⟨e1, t1⟩
  cases e1 with
  | some e => simp
  | none =>
    rcases h2 : conn.Exec c2 t1 with ⟨e2, t2⟩
    cases e2 with
    | some e => simp [h2]
    | none =>
      rcases h3 : conn.Exec c3 t2 with ⟨e3, t3⟩
      cases e3 with
      | some e => simp [h2, h3]
      | none => simp [h2, h3]

theorem newMySQLDB_of_ensure_error {σ : Type}
    (driverOpen : String → String → Except sql.GoError (Conn σ)) (config : MySQLConfig) (s : σ)
    (err : sql.GoError) (h : (ensureTableExists driverOpen config s).1 = some err) :
    (newMySQLDB driverOpen config s).1.1 = none
      ∧ (newMySQLDB driverOpen config s).1.2 = some err
      ∧ (newMySQLDB driverOpen config s).2 = (ensureTableExists driverOpen config s).2 := by
  unfold newMySQLDB
  rcases hens : ensureTableExists driverOpen config s with ⟨e, s1⟩
  rw [hens] at h
  simp only at h
  subst h
  exact ⟨rfl, rfl, rfl⟩

end habits

namespace tasks

theorem ensureTableExists_openError_tasks {σ : Type}
    (driverOpen : String → String → Except sql.GoError (Conn σ)) (config : MySQLConfig) (s : σ)
    (e : sql.GoError) (hopen : driverOpen "mysql" (config.dataStoreName "") = .error e) :
    ensureTableExists driverOpen config s
      = (some (.Errorf ("mysql: could not get a connection: " ++ e.Error)), s) := by
  simp [ensureTableExists, hopen]

theorem ensureTableExists_badConn_tasks {σ : Type}
    (driverOpen : String → String → Except sql.GoError (Conn σ)) (config : MySQLConfig)
    (s s1 : σ) (conn : Conn σ) (hopen : driverOpen "mysql" (config.dataStoreName "") = .ok conn)
    (hping : conn.Ping s = (some .ErrBadConn, s1)) :
    ensureTableExists driverOpen config s
      = (some (.Errorf "mysql: could not connect to db. "), s1) := by
  simp [ensureTableExists, hopen, hping]

theorem ensureTableExists_dbAbsent_tasks {σ : Type}
    (driverOpen : String → String → Except sql.GoError (Conn σ)) (config : MySQLConfig)
    (s s1 s2 : σ) (conn : Conn σ) (pingErr : Option sql.GoError) (m : String)
    (hopen : driverOpen "mysql" (config.dataStoreName "") = .ok conn)
    (hping : conn.Ping s = (pingErr, s1)) (hp : pingErr ≠ some .ErrBadConn)
    (huse : conn.Exec "USE arqui" s1 = (some (.MySQLError 1049 m), s2)) :
    ensureTableExists driverOpen config s = createTable conn s2 := by
  simp [ensureTableExists, hopen, hping, hp, huse, sql.GoError.isMySQLError,
    dbDoesNotExistError]

theorem ensureTableExists_present_tasks {σ : Type}
    (driverOpen : String → String → Except sql.GoError (Conn σ)) (config : MySQLConfig)
    (s s1 s2 s3 : σ) (conn : Conn σ) (pingErr useErr : Option sql.GoError)
    (hopen : driverOpen "mysql" (config.dataStoreName "") = .ok conn)
    (hping : conn.Ping s = (pingErr, s1)) (hp : pingErr ≠ some .ErrBadConn)
    (huse : conn.Exec "USE arqui" s1 = (useErr, s2))
    (hu : ∀ m, useErr ≠ some (.MySQLError 1049 m))
    (hdesc : conn.Exec "DESCRIBE tasks_reports" s2 = (none, s3)) :
    ensureTableExists driverOpen config s = (none, s3) := by
  have hany := sql.any_isMySQLError_false useErr 1049 hu
  simp [ensureTableExists, hopen, hping, hp, huse, hdesc, dbDoesNotExistError, hany]

theorem ensureTableExists_tableAbsent_tasks {σ : Type}
    (driverOpen : String → String → Except sql.GoError (Conn σ)) (config : MySQLConfig)
    (s s1 s2 s3 : σ) (conn : Conn σ) (pingErr useErr : Option sql.GoError) (m : String)
    (hopen : driverOpen "mysql" (config.dataStoreName "") = .ok conn)
    (hping : conn.Ping s = (pingErr, s1)) (hp : pingErr ≠ some .ErrBadConn)
    (huse : conn.Exec "USE arqui" s1 = (useErr, s2))
    (hu : ∀ m, useErr ≠ some (.MySQLError 1049 m))
    (hdesc : conn.Exec "DESCRIBE tasks_reports" s2 = (some (.MySQLError 1146 m), s3)) :
    ensureTableExists driverOpen config s = createTable conn s3 := by
  have hany := sql.any_isMySQLError_false useErr 1049 hu
  have hyes : (sql.GoError.MySQLError 1146 m).isMySQLError 1146 = true := by
    simp [sql.GoError.isMySQLError]
  simp [ensureTableExists, hopen, hping, hp, huse, hdesc, dbDoesNotExistError, hany,
    tableDoesNotExistError, hyes]

theorem ensureTableExists_describeError_tasks {σ : Type}
    (driverOpen : String → String → Except sql.GoError (Conn σ)) (config : MySQLConfig)
    (s s1 s2 s3 : σ) (conn : Conn σ) (pingErr useErr : Option sql.GoError) (e : sql.GoError)
    (hopen : driverOpen "mysql" (config.dataStoreName "") = .ok conn)
    (hping : conn.Ping s = (pingErr, s1)) (hp : pingErr ≠ some .ErrBadConn)
    (huse : conn.Exec "USE arqui" s1 = (useErr, s2))
    (hu : ∀ m, useErr ≠ some (.MySQLError 1049 m))
    (hdesc : conn.Exec "DESCRIBE tasks_reports" s2 = (some e, s3))
    (he : ∀ m, e ≠ .MySQLError 1146 m) :
    ensureTableExists driverOpen config s
      = (some (.Errorf ("mysql: could not connect to db: " ++ e.Error)), s3) := by
  have hany := sql.any_isMySQLError_false useErr 1049 hu
  have hno := sql.isMySQLError_false e 1146 he
  simp [ensureTableExists, hopen, hping, hp, huse, hdesc, dbDoesNotExistError, hany,
    tableDoesNotExistError, hno]

theorem createTable_ok_iff_tasks {σ : Type} (conn : Conn σ) (s s3 : σ) (c1 c2 c3 : String)
    (hstmts : createTableStatements = [c1, c2, c3]) :
    createTable conn s = (none, s3)
      ↔ ∃ s1 s2, conn.Exec c1 s = (none, s1) ∧ conn.Exec c2 s1 = (none, s2)
          ∧ conn.Exec c3 s2 = (none, s3) := by
  unfold createTable
  rw [hstmts]
  simp only [createTableLoop]
  rcases h1 : conn.Exec c1 s with ⟨e1, t1⟩
  cases e1 with
  | some e => simp
  | none =>
    rcases h2 : conn.Exec c2 t1 with ⟨e2, t2⟩
    cases e2 with
    | some e => simp [h2]
    | none =>
      rcases h3 : conn.Exec c3 t2 with ⟨e3, t3⟩
      cases e3 with
      | some e => simp [h2, h3]
      | none => simp [h2, h3]

theorem newMySQLDB_of_ensure_error_tasks {σ : Type}
    (driverOpen : String → String → Except sql.GoError (Conn σ)) (config : MySQLConfig) (s : σ)
    (err : sql.GoError) (h : (ensureTableExists driverOpen config s).1 = some err) :
    (newMySQLDB driverOpen config s).1.1 = none
      ∧ (newMySQLDB driverOpen config s).1.2 = some err
      ∧ (newMySQLDB driverOpen config s).2 = (ensureTableExists driverOpen config s).2 := by
  unfold newMySQLDB
  rcases hens : ensureTableExists driverOpen config s with ⟨e, s1⟩
  rw [hens] at h
  simp only at h
  subst h
  exact ⟨rfl, rfl, rfl⟩

end tasks

/-- C11, as the code has it.  With the handle opened, `ensureTableExists` decides as
follows.  A ping that returns `driver.ErrBadConn` makes it return an error; any other outcome
of the ping, a failure included, lets it go on.  If `USE arqui` fails with MySQL error 1049 it
runs `createTable` and returns its outcome.  After any other outcome of `USE arqui`, success
or failure, it runs `DESCRIBE`: on MySQL error 1146 it runs `createTable` and returns its
outcome, on success it returns no error and runs nothing more, on any other error it returns
an error.  `createTable` returns no error exactly when its three statements ran in order
without error, and an error returned by `ensureTableExists` makes `newMySQLDB` return that
error and no store. -/
theorem schema_bootstrap_decision :
    ((∀ (σ : Type) (driverOpen : String → String → Except sql.GoError (habits.Conn σ))
        (config : habits.MySQLConfig) (s s1 : σ) (conn : habits.Conn σ),
        driverOpen "mysql" (config.dataStoreName "") = .ok conn →
        conn.Ping s = (some .ErrBadConn, s1) →
        habits.ensureTableExists driverOpen config s
          = (some (.Errorf "mysql: could not connect to db. "), s1))
      ∧ (∀ (σ : Type) (driverOpen : String → String → Except sql.GoError (habits.Conn σ))
        (config : habits.MySQLConfig) (s s1 s2 : σ) (conn : habits.Conn σ)
        (pingErr : Option sql.GoError) (m : String),
        driverOpen "mysql" (config.dataStoreName "") = .ok conn →
        conn.Ping s = (pingErr, s1) → pingErr ≠ some .ErrBadConn →
        conn.Exec "USE arqui" s1 = (some (.MySQLError 1049 m), s2) →
        habits.ensureTableExists driverOpen config s = habits.createTable conn s2)
      ∧ (∀ (σ : Type) (driverOpen : String → String → Except sql.GoError (habits.Conn σ))
        (config : habits.MySQLConfig) (s s1 s2 s3 : σ) (conn : habits.Conn σ)
        (pingErr useErr : Option sql.GoError) (m : String),
        driverOpen "mysql" (config.dataStoreName "") = .ok conn →
        conn.Ping s = (pingErr, s1) → pingErr ≠ some .ErrBadConn →
        conn.Exec "USE arqui" s1 = (useErr, s2) →
        (∀ m1, useErr ≠ some (.MySQLError 1049 m1)) →
        conn.Exec "DESCRIBE habits_reports" s2 = (some (.MySQLError 1146 m), s3) →
        habits.ensureTableExists driverOpen config s = habits.createTable conn s3)
      ∧ (∀ (σ : Type) (driverOpen : String → String → Except sql.GoError (habits.Conn σ))
        (config : habits.MySQLConfig) (s s1 s2 s3 : σ) (conn : habits.Conn σ)
        (pingErr useErr : Option sql.GoError),
        driverOpen "mysql" (config.dataStoreName "") = .ok conn →
        conn.Ping s = (pingErr, s1) → pingErr ≠ some .ErrBadConn →
        conn.Exec "USE arqui" s1 = (useErr, s2) →
        (∀ m1, useErr ≠ some (.MySQLError 1049 m1)) →
        conn.Exec "DESCRIBE habits_reports" s2 = (none, s3) →
        habits.ensureTableExists driverOpen config s = (none, s3))
      ∧ (∀ (σ : Type) (driverOpen : String → String → Except sql.GoError (habits.Conn σ))
        (config : habits.MySQLConfig) (s s1 s2 s3 : σ) (conn : habits.Conn σ)
        (pingErr useErr : Option sql.GoError) (e : sql.GoError),
        driverOpen "mysql" (config.dataStoreName "") = .ok conn →
        conn.Ping s = (pingErr, s1) → pingErr ≠ some .ErrBadConn →
        conn.Exec "USE arqui" s1 = (useErr, s2) →
        (∀ m1, useErr ≠ some (.MySQLError 1049 m1)) →
        conn.Exec "DESCRIBE habits_reports" s2 = (some e, s3) →
        (∀ m1, e ≠ .MySQLError 1146 m1) →
        habits.ensureTableExists driverOpen config s
          = (some (.Errorf ("mysql: could not connect to db: " ++ e.Error)), s3))
      ∧ (∀ (σ : Type) (conn : habits.Conn σ) (s s3 : σ) (c1 c2 c3 : String),
        habits.createTableStatements = [c1, c2, c3] →
        (habits.createTable conn s = (none, s3)
          ↔ ∃ s1 s2, conn.Exec c1 s = (none, s1) ∧ conn.Exec c2 s1 = (none, s2)
              ∧ conn.Exec c3 s2 = (none, s3)))
      ∧ (∀ (σ : Type) (driverOpen : String → String → Except sql.GoError (habits.Conn σ))
        (config : habits.MySQLConfig) (s : σ) (err : sql.GoError),
        (habits.ensureTableExists driverOpen config s).1 = some err →
        (habits.newMySQLDB driverOpen config s).1.1 = none
          ∧ (habits.newMySQLDB driverOpen config s).1.2 = some err
          ∧ (habits.newMySQLDB driverOpen config s).2
              = (habits.ensureTableExists driverOpen config s).2))
    ∧ ((∀ (σ : Type) (driverOpen : String → String → Except sql.GoError (tasks.Conn σ))
        (config : tasks.MySQLConfig) (s s1 : σ) (conn : tasks.Conn σ),
        driverOpen "mysql" (config.dataStoreName "") = .ok conn →
        conn.Ping s = (some .ErrBadConn, s1) →
        tasks.ensureTableExists driverOpen config s
          = (some (.Errorf "mysql: could not connect to db. "), s1))
      ∧ (∀ (σ : Type) (driverOpen : String → String → Except sql.GoError (tasks.Conn σ))
        (config : tasks.MySQLConfig) (s s1 s2 : σ) (conn : tasks.Conn σ)
        (pingErr : Option sql.GoError) (m : String),
        driverOpen "mysql" (config.dataStoreName "") = .ok conn →
        conn.Ping s = (pingErr, s1) → pingErr ≠ some .ErrBadConn →
        conn.Exec "USE arqui" s1 = (some (.MySQLError 1049 m), s2) →
        tasks.ensureTableExists driverOpen config s = tasks.createTable conn s2)
      ∧ (∀ (σ : Type) (driverOpen : String → String → Except sql.GoError (tasks.Conn σ))
        (config : tasks.MySQLConfig) (s s1 s2 s3 : σ) (conn : tasks.Conn σ)
        (pingErr useErr : Option sql.GoError) (m : String),
        driverOpen "mysql" (config.dataStoreName "") = .ok conn →
        conn.Ping s = (pingErr, s1) → pingErr ≠ some .ErrBadConn →
        conn.Exec "USE arqui" s1 = (useErr, s2) →
        (∀ m1, useErr ≠ some (.MySQLError 1049 m1)) →
        conn.Exec "DESCRIBE tasks_reports" s2 = (some (.MySQLError 1146 m), s3) →
        tasks.ensureTableExists driverOpen config s = tasks.createTable conn s3)
      ∧ (∀ (σ : Type) (driverOpen : String → String → Except sql.GoError (tasks.Conn σ))
        (config : tasks.MySQLConfig) (s s1 s2 s3 : σ) (conn : tasks.Conn σ)
        (pingErr useErr : Option sql.GoError),
        driverOpen "mysql" (config.dataStoreName "") = .ok conn →
        conn.Ping s = (pingErr, s1) → pingErr ≠ some .ErrBadConn →
        conn.Exec "USE arqui" s1 = (useErr, s2) →
        (∀ m1, useErr ≠ some (.MySQLError 1049 m1)) →
        conn.Exec "DESCRIBE tasks_reports" s2 = (none, s3) →
        tasks.ensureTableExists driverOpen config s = (none, s3))
      ∧ (∀ (σ : Type) (driverOpen : String → String → Except sql.GoError (tasks.Conn σ))
        (config : tasks.MySQLConfig) (s s1 s2 s3 : σ) (conn : tasks.Conn σ)
        (pingErr useErr : Option sql.GoError) (e : sql.GoError),
        driverOpen "mysql" (config.dataStoreName "") = .ok conn →
        conn.Ping s = (pingErr, s1) → pingErr ≠ some .ErrBadConn →
        conn.Exec "USE arqui" s1 = (useErr, s2) →
        (∀ m1, useErr ≠ some (.MySQLError 1049 m1)) →
        conn.Exec "DESCRIBE tasks_reports" s2 = (some e, s3) →
        (∀ m1, e ≠ .MySQLError 1146 m1) →
        tasks.ensureTableExists driverOpen config s
          = (some (.Errorf ("mysql: could not connect to db: " ++ e.Error)), s3))
      ∧ (∀ (σ : Type) (conn : tasks.Conn σ) (s s3 : σ) (c1 c2 c3 : String),
        tasks.createTableStatements = [c1, c2, c3] →
        (tasks.createTable conn s = (none, s3)
          ↔ ∃ s1 s2, conn.Exec c1 s = (none, s1) ∧ conn.Exec c2 s1 = (none, s2)
              ∧ conn.Exec c3 s2 = (none, s3)))
      ∧ (∀ (σ : Type) (driverOpen : String → String → Except sql.GoError (tasks.Conn σ))
        (config : tasks.MySQLConfig) (s : σ) (err : sql.GoError),
        (tasks.ensureTableExists driverOpen config s).1 = some err →
        (tasks.newMySQLDB driverOpen config s).1.1 = none
          ∧ (tasks.newMySQLDB driverOpen config s).1.2 = some err
          ∧ (tasks.newMySQLDB driverOpen config s).2
              = (tasks.ensureTableExists driverOpen config s).2)) :=
  ⟨⟨fun _ driverOpen config s s1 conn h1 h2 =>
        habits.ensureTableExists_badConn driverOpen config s s1 conn h1 h2,
      fun _ driverOpen config s s1 s2 conn pingErr m h1 h2 h3 h4 =>
        habits.ensureTableExists_dbAbsent driverOpen config s s1 s2 conn pingErr m
          h1 h2 h3 h4,
      fun _ driverOpen config s s1 s2 s3 conn pingErr useErr m h1 h2 h3 h4 h5 h6 =>
        habits.ensureTableExists_tableAbsent driverOpen config s s1 s2 s3 conn pingErr
          useErr m h1 h2 h3 h4 h5 h6,
      fun _ driverOpen config s s1 s2 s3 conn pingErr useErr h1 h2 h3 h4 h5 h6 =>
        habits.ensureTableExists_present driverOpen config s s1 s2 s3 conn pingErr
          useErr h1 h2 h3 h4 h5 h6,
      fun _ driverOpen config s s1 s2 s3 conn pingErr useErr e h1 h2 h3 h4 h5 h6 h7 =>
        habits.ensureTableExists_describeError driverOpen config s s1 s2 s3 conn
          pingErr useErr e h1 h2 h3 h4 h5 h6 h7,
      fun _ conn s s3 c1 c2 c3 h => habits.createTable_ok_iff conn s s3 c1 c2 c3 h,
      fun _ driverOpen config s err h =>
        habits.newMySQLDB_of_ensure_error driverOpen config s err h⟩,
    ⟨fun _ driverOpen config s s1 conn h1 h2 =>
        tasks.ensureTableExists_badConn_tasks driverOpen config s s1 conn h1 h2,
      fun _ driverOpen config s s1 s2 conn pingErr m h1 h2 h3 h4 =>
        tasks.ensureTableExists_dbAbsent_tasks driverOpen config s s1 s2 conn pingErr m
          h1 h2 h3 h4,
      fun _ driverOpen config s s1 s2 s3 conn pingErr useErr m h1 h2 h3 h4 h5 h6 =>
        tasks.ensureTableExists_tableAbsent_tasks driverOpen config s s1 s2 s3 conn pingErr
          useErr m h1 h2 h3 h4 h5 h6,
      fun _ driverOpen config s s1 s2 s3 conn pingErr useErr h1 h2 h3 h4 h5 h6 =>
        tasks.ensureTableExists_present_tasks driverOpen config s s1 s2 s3 conn pingErr
          useErr h1 h2 h3 h4 h5 h6,
      fun _ driverOpen config s s1 s2 s3 conn pingErr useErr e h1 h2 h3 h4 h5 h6 h7 =>
        tasks.ensureTableExists_describeError_tasks driverOpen config s s1 s2 s3 conn
          pingErr useErr e h1 h2 h3 h4 h5 h6 h7,
      fun _ conn s s3 c1 c2 c3 h => tasks.createTable_ok_iff_tasks conn s s3 c1 c2 c3 h,
      fun _ driverOpen config s err h =>
        tasks.newMySQLDB_of_ensure_error_tasks driverOpen config s err h⟩⟩

theorem schema_bootstrap_decision_witness :
    habits.ensureTableExists
        (fun _ _ => .ok (habits.scriptedConn none (some (.MySQLError 1049 "Unknown database"))
          none)) habits.cloudSQLConfig []
      = habits.createTable
          (habits.scriptedConn none (some (.MySQLError 1049 "Unknown database")) none)
          ["USE arqui"]
    ∧ tasks.ensureTableExists
        (fun _ _ => .ok (tasks.scriptedConn none none
          (some (.MySQLError 1146 "Table does not exist")))) tasks.cloudSQLConfig []
      = tasks.createTable
          (tasks.scriptedConn none none (some (.MySQLError 1146 "Table does not exist")))
          ["USE arqui", "DESCRIBE tasks_reports"]
    ∧ habits.ensureTableExists (fun _ _ => .ok (habits.scriptedConn none none none))
        habits.cloudSQLConfig []
      = (none, ["USE arqui", "DESCRIBE habits_reports"])
    ∧ tasks.ensureTableExists
        (fun _ _ => .ok (tasks.scriptedConn none none
          (some (.MySQLError 1046 "No database selected")))) tasks.cloudSQLConfig []
      = (some (.Errorf ("mysql: could not connect to db: "
          ++ (sql.GoError.MySQLError 1046 "No database selected").Error)),
          ["USE arqui", "DESCRIBE tasks_reports"])
    ∧ habits.ensureTableExists
        (fun _ _ => .ok (habits.scriptedConn (some .ErrBadConn) none none))
        habits.cloudSQLConfig []
      = (some (.Errorf "mysql: could not connect to db. "), []) :=
  ⟨schema_bootstrap_decision.1.2.1 _ _ habits.cloudSQLConfig [] [] ["USE arqui"] _ none
      "Unknown database" rfl rfl (by decide) rfl,
    schema_bootstrap_decision.2.2.2.1 _ _ tasks.cloudSQLConfig [] [] ["USE arqui"]
      ["USE arqui", "DESCRIBE tasks_reports"] _ none none "Table does not exist" rfl rfl
      (by decide) rfl (fun _ => by simp) rfl,
    schema_bootstrap_decision.1.2.2.2.1 _ _ habits.cloudSQLConfig [] [] ["USE arqui"]
      ["USE arqui", "DESCRIBE habits_reports"] _ none none rfl rfl (by decide) rfl
      (fun _ => by simp) rfl,
    schema_bootstrap_decision.2.2.2.2.2.1 _ _ tasks.cloudSQLConfig [] [] ["USE arqui"]
      ["USE arqui", "DESCRIBE tasks_reports"] _ none none
      (.MySQLError 1046 "No database selected") rfl rfl (by decide) rfl (fun _ => by simp)
      rfl (fun _ => by simp),
    schema_bootstrap_decision.1.1 _ _ habits.cloudSQLConfig [] [] _ rfl rfl⟩

/-- C11 as stated fails.  When the ping fails with an error other than `driver.ErrBadConn`
and both statements succeed, and when `USE arqui` fails with an error other than 1049 and
`DESCRIBE` succeeds, `ensureTableExists` returns no error, having run the two statements and
nothing else. -/
theorem schema_bootstrap_counterexample :
    habits.ensureTableExists
        (fun _ _ => .ok (habits.scriptedConn (some (.Errorf "dial tcp: i/o timeout")) none none))
        habits.cloudSQLConfig []
      = (none, ["USE arqui", "DESCRIBE habits_reports"])
    ∧ habits.ensureTableExists
        (fun _ _ => .ok (habits.scriptedConn none (some (.MySQLError 1044 "Access denied"))
          none)) habits.cloudSQLConfig []
      = (none, ["USE arqui", "DESCRIBE habits_reports"])
    ∧ tasks.ensureTableExists
        (fun _ _ => .ok (tasks.scriptedConn (some (.Errorf "dial tcp: i/o timeout")) none none))
        tasks.cloudSQLConfig []
      = (none, ["USE arqui", "DESCRIBE tasks_reports"])
    ∧ tasks.ensureTableExists
        (fun _ _ => .ok (tasks.scriptedConn none (some (.MySQLError 1044 "Access denied"))
          none)) tasks.cloudSQLConfig []
      = (none, ["USE arqui", "DESCRIBE tasks_reports"]) := by
  refine ⟨?_, ?_, ?_, ?_⟩ <;> decide
